import Mathlib

/-!
Verification of the in-memory account/credential/session data store
(`lib/db/mem.js`).

Modelling conventions for the shallow embedding:

* A JavaScript object used as a table is modelled as an association list
  `AList V = List (String × V)`; `obj[k]` is `alookup`, `obj[k] = v` is
  `aset` (replace-in-place or append, matching JS property update order),
  `delete obj[k]` is `aerase`.
* Byte buffers are modelled by their lowercase-hex rendering, a `String`;
  every string coercion of a buffer is modelled by that same string, so a
  table keyed by a buffer coercion is keyed by the same `String` id.
* A JS field that can be `undefined` or `null` is an `Option`; both falsy
  markers collapse to `none` (the source treats them alike via
  `field === undefined || field === null` and truthiness tests).
* Truthiness: an object (account row, token row, buffer) is truthy iff
  present (`Option.isSome`); a string is truthy iff present and nonempty.
* Each operation takes the store `State` and returns
  `Except Err α × State`: the promise outcome together with the state
  after the call, including mutations made before a failure was thrown.
* An uncaught JavaScript `TypeError` (dereferencing an absent account row
  inside a read) is modelled by the distinguished outcome `Err.jsTypeError`.
-/

set_option autoImplicit false

namespace MemDb

/-- Association list standing for a JavaScript object used as a table. -/
abbrev AList (V : Type) := List (String × V)

variable {V W : Type}

/-- `obj[k]` : first value bound to `k`. -/
def alookup : AList V → String → Option V
  | [], _ => none
  | (k', v) :: t, k => if k' = k then some v else alookup t k

/-- `obj[k] = v` : replace the first binding of `k` in place, else append. -/
def aset : AList V → String → V → AList V
  | [], k, v => [(k, v)]
  | (k', v') :: t, k, v => if k' = k then (k, v) :: t else (k', v') :: aset t k v

/-- `delete obj[k]`. -/
def aerase (l : AList V) (k : String) : AList V :=
  l.filter (fun p => p.1 ≠ k)

/-- The keys of a table. -/
def keysOf (l : AList V) : List String := l.map Prod.fst

/-! ## Data model (rows of the nine tables of `lib/db/mem.js`) -/

/-- The three error kinds produced by the store, plus `jsTypeError` for an
uncaught JavaScript `TypeError` (dereferencing a field of `undefined`). -/
inductive Err where
  | duplicate
  | notFound
  | incorrectPassword
  | jsTypeError
  deriving Repr, DecidableEq

/-- A device registration, embedded in its account row.  Fields from
`DEVICE_FIELDS` plus `uid`/`id` set at creation and the `SESSION_FIELDS`
mirrored from the linked session token. -/
structure Device where
  uid : String
  id : String
  sessionTokenId : Option String
  name : Option String
  type' : Option String
  createdAt : Option Nat
  callbackURL : Option String
  callbackPublicKey : Option String
  uaBrowser : Option String
  uaBrowserVersion : Option String
  uaOS : Option String
  uaOSVersion : Option String
  uaDeviceType : Option String
  lastAccessTime : Option Nat
  deriving Repr, DecidableEq

/-- An account row.  `createAccount` stores its `data` argument after
overwriting `devices` and `lockedAt`. -/
structure Account where
  normalizedEmail : String
  email : String
  openId : Option String
  verifyHash : Option String
  authSalt : String
  wrapWrapKb : String
  verifierSetAt : Nat
  verifierVersion : Nat
  emailVerified : Nat
  emailCode : String
  locale : Option String
  createdAt : Nat
  lockedAt : Option Nat
  devices : AList Device
  deriving Repr, DecidableEq

/-- A stored session token row. `deviceKey` is the weak back-reference set by
`updateDeviceRecord`; a freshly created token has no such property (`none`). -/
structure SessionToken where
  data : String
  uid : String
  createdAt : Nat
  uaBrowser : Option String
  uaBrowserVersion : Option String
  uaOS : Option String
  uaOSVersion : Option String
  uaDeviceType : Option String
  lastAccessTime : Nat
  deviceKey : Option String
  deriving Repr, DecidableEq

/-- A stored key-fetch token row. -/
structure KeyFetchToken where
  authKey : String
  uid : String
  keyBundle : String
  createdAt : Nat
  deriving Repr, DecidableEq

/-- A stored password-forgot token row. -/
structure ForgotToken where
  tokenData : String
  uid : String
  passCode : String
  tries : Nat
  createdAt : Nat
  deriving Repr, DecidableEq

/-- A stored password-change token row. -/
structure ChangeToken where
  tokenData : String
  uid : String
  createdAt : Nat
  deriving Repr, DecidableEq

/-- A stored account-reset token row. -/
structure ResetToken where
  tokenData : String
  uid : String
  createdAt : Nat
  deriving Repr, DecidableEq

/-- An unlock-code row, installed by `lockAccount`. -/
structure UnlockCode where
  uid : String
  unlockCode : String
  deriving Repr, DecidableEq

/-- The whole store: the nine module-level tables of `mem.js`. -/
structure State where
  accounts : AList Account
  uidByNormalizedEmail : AList String
  uidByOpenId : AList String
  sessionTokens : AList SessionToken
  keyFetchTokens : AList KeyFetchToken
  accountResetTokens : AList ResetToken
  passwordChangeTokens : AList ChangeToken
  passwordForgotTokens : AList ForgotToken
  accountUnlockCodes : AList UnlockCode
  deriving Repr, DecidableEq

/-- The empty store (all module-level tables start as `{}`). -/
def initState : State :=
  { accounts := [], uidByNormalizedEmail := [], uidByOpenId := [],
    sessionTokens := [], keyFetchTokens := [], accountResetTokens := [],
    passwordChangeTokens := [], passwordForgotTokens := [], accountUnlockCodes := [] }

/-! ## Argument payloads -/

/-- Argument of `createSessionToken` (the stored row adds `lastAccessTime`
and carries no `deviceKey`). -/
structure SessionTokenPayload where
  data : String
  uid : String
  createdAt : Nat
  uaBrowser : Option String
  uaBrowserVersion : Option String
  uaOS : Option String
  uaOSVersion : Option String
  uaDeviceType : Option String
  deriving Repr, DecidableEq

/-- Argument of `createKeyFetchToken`. -/
structure KeyFetchPayload where
  authKey : String
  uid : String
  keyBundle : String
  createdAt : Nat
  deriving Repr, DecidableEq

/-- Argument of `createPasswordForgotToken`. -/
structure ForgotTokenPayload where
  data : String
  uid : String
  passCode : String
  tries : Nat
  createdAt : Nat
  deriving Repr, DecidableEq

/-- Argument of `createPasswordChangeToken`. -/
structure ChangeTokenPayload where
  data : String
  uid : String
  createdAt : Nat
  deriving Repr, DecidableEq

/-- Argument of `createAccountResetToken` and `forgotPasswordVerified`
(the latter also reads its `tokenId` field). -/
structure ResetTokenPayload where
  tokenId : String
  uid : String
  data : String
  createdAt : Nat
  deriving Repr, DecidableEq

/-- The `deviceInfo` argument of `createDevice` / `updateDevice`; any field
may be absent (partial update). -/
structure DeviceInfo where
  sessionTokenId : Option String
  name : Option String
  type' : Option String
  createdAt : Option Nat
  callbackURL : Option String
  callbackPublicKey : Option String
  deriving Repr, DecidableEq

/-- Argument of `resetAccount`. -/
structure ResetAccountData where
  verifyHash : Option String
  authSalt : String
  wrapWrapKb : String
  verifierSetAt : Nat
  verifierVersion : Nat
  deriving Repr, DecidableEq

/-- Argument of `lockAccount`. -/
structure LockData where
  lockedAt : Nat
  unlockCode : String
  deriving Repr, DecidableEq

/-- Argument of `updateSessionToken`. -/
structure UpdateSessionData where
  uaBrowser : Option String
  uaBrowserVersion : Option String
  uaOS : Option String
  uaOSVersion : Option String
  uaDeviceType : Option String
  lastAccessTime : Nat
  deriving Repr, DecidableEq

/-! ## Read-result shapes (the `item` objects built by the read operations) -/

/-- Result of the `sessionToken` read: token fields with falsy UA values
collapsed to `null`, joined with fields of the owning account. -/
structure SessionTokenItem where
  tokenData : String
  uid : String
  createdAt : Nat
  uaBrowser : Option String
  uaBrowserVersion : Option String
  uaOS : Option String
  uaOSVersion : Option String
  uaDeviceType : Option String
  lastAccessTime : Nat
  emailVerified : Nat
  email : String
  emailCode : String
  verifierSetAt : Nat
  locale : Option String
  accountCreatedAt : Nat
  deriving Repr, DecidableEq

/-- Result of the `keyFetchToken` read. -/
structure KeyFetchTokenItem where
  authKey : String
  uid : String
  keyBundle : String
  createdAt : Nat
  emailVerified : Nat
  verifierSetAt : Nat
  deriving Repr, DecidableEq

/-- Result of the `passwordForgotToken` read. -/
structure ForgotTokenItem where
  tokenData : String
  uid : String
  passCode : String
  tries : Nat
  createdAt : Nat
  email : String
  verifierSetAt : Nat
  deriving Repr, DecidableEq

/-- Result of the `passwordChangeToken` read. -/
structure ChangeTokenItem where
  tokenData : String
  uid : String
  createdAt : Nat
  email : String
  verifierSetAt : Nat
  deriving Repr, DecidableEq

/-- Result of the `accountResetToken` read. -/
structure ResetTokenItem where
  tokenData : String
  uid : String
  createdAt : Nat
  verifierSetAt : Nat
  deriving Repr, DecidableEq

/-- One element of the `sessions` listing. -/
structure SessionListItem where
  tokenId : String
  uid : String
  createdAt : Nat
  uaBrowser : Option String
  uaBrowserVersion : Option String
  uaOS : Option String
  uaOSVersion : Option String
  uaDeviceType : Option String
  lastAccessTime : Nat
  deriving Repr, DecidableEq

/-! ## Helpers from the source -/

/-- `email.toString('utf8').toLowerCase()`: JavaScript lowercases a string
character by character. -/
def toLowerCase (s : String) : String := String.mk (s.data.map Char.toLower)

/-- JS string truthiness on an optional string: `undefined`, `null` and `''`
are falsy (this is `x || null` restricted to string values). -/
def truthyStr : Option String → Option String
  | some s => if s = "" then none else some s
  | none => none

/-- `(x || '').toString('hex')` on an optional buffer: the hex rendering,
`''` when absent. -/
def strVal (o : Option String) : String := o.getD ""

/-- Truthiness of a table cell holding a string value (`uidByNormalizedEmail`
and `uidByOpenId` store uid strings; an empty string is falsy). -/
def truthyCell : Option String → Bool
  | some s => s ≠ ""
  | none => false

/-- `new Buffer(32); field.fill(0)` : the all-zero 32-byte callback public
key sentinel, in the hex rendering used for buffers. -/
def zeroPublicKey : String := String.mk (List.replicate 64 '0')

/-- One step of the `DEVICE_FIELDS` merge loop: a present payload value wins,
an absent (`undefined`/`null`) one keeps the device's current value (which
defaults to the `null` marker, i.e. `none`, when never set). -/
def mergeField {α : Type} (old new : Option α) : Option α :=
  match new with
  | some v => some v
  | none => old

/-- The `DEVICE_FIELDS.forEach` merge of `updateDeviceRecord`, unrolled over
the six fields; an empty `callbackPublicKey` is normalized to the
all-zero sentinel. -/
def mergeDeviceFields (device : Device) (info : DeviceInfo) : Device :=
  { device with
    sessionTokenId := mergeField device.sessionTokenId info.sessionTokenId
    name := mergeField device.name info.name
    type' := mergeField device.type' info.type'
    createdAt := mergeField device.createdAt info.createdAt
    callbackURL := mergeField device.callbackURL info.callbackURL
    callbackPublicKey :=
      match info.callbackPublicKey with
      | some v => some (if v = "" then zeroPublicKey else v)
      | none => device.callbackPublicKey }

/-- The `SESSION_FIELDS.forEach` mirror: copy the UA descriptor and
last-access time of a session token onto a device. -/
def mirrorSessionFields (device : Device) (session : SessionToken) : Device :=
  { device with
    uaBrowser := session.uaBrowser
    uaBrowserVersion := session.uaBrowserVersion
    uaOS := session.uaOS
    uaOSVersion := session.uaOSVersion
    uaDeviceType := session.uaDeviceType
    lastAccessTime := some session.lastAccessTime }

/-- `filterAccount`: shallow copy without the secret `verifyHash` field. -/
def filterAccount (account : Account) : Account :=
  { account with verifyHash := none }

/-- `getAccountByUid` as called with a `Buffer` uid.  A buffer is an object,
hence always truthy, so the `if (!uid)` guard never fires on this path and
the row lookup is unconditional. -/
def getAccountByUid (s : State) (uid : String) : Except Err Account :=
  match alookup s.accounts uid with
  | some a => Except.ok a
  | none => Except.error Err.notFound

/-- `getAccountByUid` as called with a possibly-undefined index cell (a
string): `undefined` and `''` are falsy and are rejected with NotFound by
the `if (!uid)` guard. -/
def getAccountByUidCell (s : State) (uid : Option String) : Except Err Account :=
  match uid with
  | none => Except.error Err.notFound
  | some u => if u = "" then Except.error Err.notFound else getAccountByUid s u

/-! ## CREATE operations -/

/-- `createAccount(uid, data)`: Duplicate on an existing uid, an indexed
normalized email, or an indexed (truthy) openId; otherwise stores `data`
with an empty device collection and a null lock timestamp and populates
the indices. -/
def createAccount (s : State) (uid : String) (data : Account) : Except Err Unit × State :=
  let data := { data with devices := [], lockedAt := none }
  if (alookup s.accounts uid).isSome then
    (Except.error Err.duplicate, s)
  else if truthyCell (alookup s.uidByNormalizedEmail data.normalizedEmail) then
    (Except.error Err.duplicate, s)
  else
    match truthyStr data.openId with
    | some oid =>
      if truthyCell (alookup s.uidByOpenId oid) then
        (Except.error Err.duplicate, s)
      else
        (Except.ok (), { s with
          uidByOpenId := aset s.uidByOpenId oid uid
          accounts := aset s.accounts uid data
          uidByNormalizedEmail := aset s.uidByNormalizedEmail data.normalizedEmail uid })
    | none =>
      (Except.ok (), { s with
        accounts := aset s.accounts uid data
        uidByNormalizedEmail := aset s.uidByNormalizedEmail data.normalizedEmail uid })

/-- `createSessionToken(tokenId, sessionToken)`: Duplicate on an existing
identifier; stores the UA fields and initializes
`lastAccessTime = createdAt`; the stored row has no `deviceKey` yet. -/
def createSessionToken (s : State) (tokenId : String) (t : SessionTokenPayload) :
    Except Err Unit × State :=
  if (alookup s.sessionTokens tokenId).isSome then
    (Except.error Err.duplicate, s)
  else
    let row : SessionToken :=
      { data := t.data, uid := t.uid, createdAt := t.createdAt,
        uaBrowser := t.uaBrowser, uaBrowserVersion := t.uaBrowserVersion,
        uaOS := t.uaOS, uaOSVersion := t.uaOSVersion,
        uaDeviceType := t.uaDeviceType, lastAccessTime := t.createdAt,
        deviceKey := none }
    (Except.ok (), { s with sessionTokens := aset s.sessionTokens tokenId row })

/-- `createKeyFetchToken(tokenId, keyFetchToken)`. -/
def createKeyFetchToken (s : State) (tokenId : String) (t : KeyFetchPayload) :
    Except Err Unit × State :=
  if (alookup s.keyFetchTokens tokenId).isSome then
    (Except.error Err.duplicate, s)
  else
    let row : KeyFetchToken :=
      { authKey := t.authKey, uid := t.uid, keyBundle := t.keyBundle,
        createdAt := t.createdAt }
    (Except.ok (), { s with keyFetchTokens := aset s.keyFetchTokens tokenId row })

/-- `deleteByUid(uid, collection)`: remove every row whose owner is `uid`.
Every row type carries a total `uid` field, so the integrity throw for a
missing owner field is unreachable in the model. -/
def deleteByUid {V : Type} (getUid : V → String) (uid : String) (l : AList V) : AList V :=
  l.filter (fun p => getUid p.2 ≠ uid)

/-- `createPasswordForgotToken(tokenId, passwordForgotToken)`: Duplicate on
an existing identifier, else delete-then-insert per owning account. -/
def createPasswordForgotToken (s : State) (tokenId : String) (t : ForgotTokenPayload) :
    Except Err Unit × State :=
  if (alookup s.passwordForgotTokens tokenId).isSome then
    (Except.error Err.duplicate, s)
  else
    let row : ForgotToken :=
      { tokenData := t.data, uid := t.uid, passCode := t.passCode,
        tries := t.tries, createdAt := t.createdAt }
    let table := aset (deleteByUid ForgotToken.uid t.uid s.passwordForgotTokens) tokenId row
    (Except.ok (), { s with passwordForgotTokens := table })

/-- `createPasswordChangeToken(tokenId, passwordChangeToken)`. -/
def createPasswordChangeToken (s : State) (tokenId : String) (t : ChangeTokenPayload) :
    Except Err Unit × State :=
  if (alookup s.passwordChangeTokens tokenId).isSome then
    (Except.error Err.duplicate, s)
  else
    let row : ChangeToken := { tokenData := t.data, uid := t.uid, createdAt := t.createdAt }
    let table := aset (deleteByUid ChangeToken.uid t.uid s.passwordChangeTokens) tokenId row
    (Except.ok (), { s with passwordChangeTokens := table })

/-- `createAccountResetToken(tokenId, accountResetToken)`: no duplicate
check; delete-then-insert per owning account. -/
def createAccountResetToken (s : State) (tokenId : String) (t : ResetTokenPayload) :
    Except Err Unit × State :=
  let row : ResetToken := { tokenData := t.data, uid := t.uid, createdAt := t.createdAt }
  let table := aset (deleteByUid ResetToken.uid t.uid s.accountResetTokens) tokenId row
  (Except.ok (), { s with accountResetTokens := table })

/-- `updateDeviceRecord(device, deviceInfo, deviceKey)`: if the payload
names a session token bound to a different device, throw Duplicate before
mutating anything; otherwise merge the device fields and, when the session
was resolved, mirror its UA fields and set its back-reference.  Returns the
updated device record together with the store (whose session table may have
gained the back-reference). -/
def updateDeviceRecord (s : State) (device : Device) (info : DeviceInfo)
    (deviceKey : String) : Except Err (Device × State) :=
  let sessionKey := strVal info.sessionTokenId
  let sessionOpt := if sessionKey ≠ "" then alookup s.sessionTokens sessionKey else none
  match sessionOpt with
  | some session =>
    match truthyStr session.deviceKey with
    | some dk =>
      if dk ≠ deviceKey then
        Except.error Err.duplicate
      else
        let d := mirrorSessionFields (mergeDeviceFields device info) session
        let linked := aset s.sessionTokens sessionKey { session with deviceKey := some deviceKey }
        Except.ok (d, { s with sessionTokens := linked })
    | none =>
      let d := mirrorSessionFields (mergeDeviceFields device info) session
      let linked := aset s.sessionTokens sessionKey { session with deviceKey := some deviceKey }
      Except.ok (d, { s with sessionTokens := linked })
  | none =>
    Except.ok (mergeDeviceFields device info, s)

/-- `createDevice(uid, deviceId, deviceInfo)`: NotFound for a missing
account, Duplicate for an existing device id, else build a fresh
`{uid, id}` record and run `updateDeviceRecord` on it. -/
def createDevice (s : State) (uid : String) (deviceId : String) (info : DeviceInfo) :
    Except Err Unit × State :=
  match getAccountByUid s uid with
  | Except.error e => (Except.error e, s)
  | Except.ok account =>
    let deviceKey := deviceId
    if (alookup account.devices deviceKey).isSome then
      (Except.error Err.duplicate, s)
    else
      let device : Device :=
        { uid := uid, id := deviceId, sessionTokenId := none, name := none,
          type' := none, createdAt := none, callbackURL := none,
          callbackPublicKey := none, uaBrowser := none, uaBrowserVersion := none,
          uaOS := none, uaOSVersion := none, uaDeviceType := none,
          lastAccessTime := none }
      match updateDeviceRecord s device info deviceKey with
      | Except.error e => (Except.error e, s)
      | Except.ok (d, s1) =>
        let account := { account with devices := aset account.devices deviceKey d }
        (Except.ok (), { s1 with accounts := aset s1.accounts uid account })

/-- `updateDevice(uid, deviceId, deviceInfo)`: NotFound for a missing
account or device; when moving to a different session token, first clear
the old token's back-reference (this mutation persists even if
`updateDeviceRecord` then throws Duplicate); when the payload carries no
session token, retain the device's existing binding. -/
def updateDevice (s : State) (uid : String) (deviceId : String) (info : DeviceInfo) :
    Except Err Unit × State :=
  match getAccountByUid s uid with
  | Except.error e => (Except.error e, s)
  | Except.ok account =>
    let deviceKey := deviceId
    match alookup account.devices deviceKey with
    | none => (Except.error Err.notFound, s)
    | some device =>
      let unlinked : DeviceInfo × State :=
        match device.sessionTokenId with
        | some oldTid =>
          match info.sessionTokenId with
          | some newTid =>
            if oldTid ≠ newTid then
              (info,
                match alookup s.sessionTokens oldTid with
                | some oldSession =>
                  let cleared := aset s.sessionTokens oldTid { oldSession with deviceKey := none }
                  { s with sessionTokens := cleared }
                | none => s)
            else (info, s)
          | none => ({ info with sessionTokenId := some oldTid }, s)
        | none => (info, s)
      match updateDeviceRecord unlinked.2 device unlinked.1 deviceKey with
      | Except.error e => (Except.error e, unlinked.2)
      | Except.ok (d, s2) =>
        let account := { account with devices := aset account.devices deviceKey d }
        (Except.ok (), { s2 with accounts := aset s2.accounts uid account })

/-! ## DELETE operations -/

/-- `deleteSessionToken(tokenId)`: idempotent, absence is success. -/
def deleteSessionToken (s : State) (tokenId : String) : Except Err Unit × State :=
  if (alookup s.sessionTokens tokenId).isSome then
    (Except.ok (), { s with sessionTokens := aerase s.sessionTokens tokenId })
  else
    (Except.ok (), s)

/-- `deleteKeyFetchToken(tokenId)`: unconditional delete, always success. -/
def deleteKeyFetchToken (s : State) (tokenId : String) : Except Err Unit × State :=
  (Except.ok (), { s with keyFetchTokens := aerase s.keyFetchTokens tokenId })

/-- `deleteAccountResetToken(tokenId)`. -/
def deleteAccountResetToken (s : State) (tokenId : String) : Except Err Unit × State :=
  (Except.ok (), { s with accountResetTokens := aerase s.accountResetTokens tokenId })

/-- `deletePasswordForgotToken(tokenId)`. -/
def deletePasswordForgotToken (s : State) (tokenId : String) : Except Err Unit × State :=
  (Except.ok (), { s with passwordForgotTokens := aerase s.passwordForgotTokens tokenId })

/-- `deletePasswordChangeToken(tokenId)`. -/
def deletePasswordChangeToken (s : State) (tokenId : String) : Except Err Unit × State :=
  (Except.ok (), { s with passwordChangeTokens := aerase s.passwordChangeTokens tokenId })

/-- `deleteDevice(uid, deviceId)`: NotFound when absent; deletes the session
token named by the device's `sessionTokenId` (key `''` when unset) and the
device entry. -/
def deleteDevice (s : State) (uid : String) (deviceId : String) : Except Err Unit × State :=
  match getAccountByUid s uid with
  | Except.error e => (Except.error e, s)
  | Except.ok account =>
    match alookup account.devices deviceId with
    | none => (Except.error Err.notFound, s)
    | some device =>
      let sessionKey := strVal device.sessionTokenId
      let account := { account with devices := aerase account.devices deviceId }
      (Except.ok (), { s with
        sessionTokens := aerase s.sessionTokens sessionKey,
        accounts := aset s.accounts uid account })

/-! ## READ operations -/

/-- `accountExists(email)`: lowercases the supplied email and tests the
normalized-email index. -/
def accountExists (s : State) (email : String) : Except Err Unit :=
  if truthyCell (alookup s.uidByNormalizedEmail (toLowerCase email)) then
    Except.ok ()
  else
    Except.error Err.notFound

/-- `checkPassword(uid, hash)`: any lookup failure is mapped to
IncorrectPassword; on a hit the stored `verifyHash` is compared
byte-for-byte (hex) against `hash.verifyHash`.  A stored row with no
`verifyHash` would make the JS comparison throw a `TypeError`. -/
def checkPassword (s : State) (uid : String) (verifyHash : String) : Except Err String :=
  match getAccountByUid s uid with
  | Except.error _ => Except.error Err.incorrectPassword
  | Except.ok account =>
    match account.verifyHash with
    | none => Except.error Err.jsTypeError
    | some vh =>
      if vh = verifyHash then Except.ok uid else Except.error Err.incorrectPassword

/-- One step of the `accountDevices` mapping: mirror the live session's UA
fields onto the device (mutating the stored record), else return it as is. -/
def accountDevicesStep (sessions : AList SessionToken) (device : Device) : Device :=
  match alookup sessions (strVal device.sessionTokenId) with
  | some session => mirrorSessionFields device session
  | none => device

/-- `accountDevices(uid)`: an absent account yields an empty list; otherwise
map over the device collection, refreshing the mirrored session fields in
place (the source mutates the stored device objects). -/
def accountDevices (s : State) (uid : String) : List Device × State :=
  match alookup s.accounts uid with
  | none => ([], s)
  | some account =>
    let devices := account.devices.map
      (fun p => (p.1, accountDevicesStep s.sessionTokens p.2))
    let account := { account with devices := devices }
    (devices.map Prod.snd, { s with accounts := aset s.accounts uid account })

/-- `account(uid)`: the filtered view of the row, NotFound when absent. -/
def account (s : State) (uid : String) : Except Err Account :=
  match getAccountByUid s uid with
  | Except.ok a => Except.ok (filterAccount a)
  | Except.error e => Except.error e

/-- `emailRecord(email)`: look the lowercased email up in the index, then
the account by the (possibly undefined) cell; filtered view. -/
def emailRecord (s : State) (email : String) : Except Err Account :=
  match getAccountByUidCell s (alookup s.uidByNormalizedEmail (toLowerCase email)) with
  | Except.ok a => Except.ok (filterAccount a)
  | Except.error e => Except.error e

/-- `openIdRecord(openId)`: like `emailRecord` over the openId index (no
case folding). -/
def openIdRecord (s : State) (openId : String) : Except Err Account :=
  match getAccountByUidCell s (alookup s.uidByOpenId openId) with
  | Except.ok a => Except.ok (filterAccount a)
  | Except.error e => Except.error e

/-- `sessions(uid)`: all session tokens owned by `uid`, shaped with falsy UA
fields collapsed to the null marker and the identifier echoed back. -/
def sessions (s : State) (uid : String) : List SessionListItem :=
  (s.sessionTokens.filter (fun p => p.2.uid = uid)).map
    (fun p =>
      { tokenId := p.1, uid := p.2.uid, createdAt := p.2.createdAt,
        uaBrowser := truthyStr p.2.uaBrowser,
        uaBrowserVersion := truthyStr p.2.uaBrowserVersion,
        uaOS := truthyStr p.2.uaOS, uaOSVersion := truthyStr p.2.uaOSVersion,
        uaDeviceType := truthyStr p.2.uaDeviceType,
        lastAccessTime := p.2.lastAccessTime })

/-- `sessionToken(id)`: NotFound when absent; otherwise the token joined
with fields of the owning account, whose row is dereferenced
unconditionally (a `TypeError` escapes when that account is absent). -/
def sessionToken (s : State) (id : String) : Except Err SessionTokenItem :=
  match alookup s.sessionTokens id with
  | none => Except.error Err.notFound
  | some t =>
    match alookup s.accounts t.uid with
    | none => Except.error Err.jsTypeError
    | some a =>
      Except.ok
        { tokenData := t.data, uid := t.uid, createdAt := t.createdAt,
          uaBrowser := truthyStr t.uaBrowser,
          uaBrowserVersion := truthyStr t.uaBrowserVersion,
          uaOS := truthyStr t.uaOS, uaOSVersion := truthyStr t.uaOSVersion,
          uaDeviceType := truthyStr t.uaDeviceType,
          lastAccessTime := t.lastAccessTime,
          emailVerified := a.emailVerified, email := a.email,
          emailCode := a.emailCode, verifierSetAt := a.verifierSetAt,
          locale := a.locale, accountCreatedAt := a.createdAt }

/-- `keyFetchToken(id)`: NotFound when absent; joined with the owning
account (unconditional dereference). -/
def keyFetchToken (s : State) (id : String) : Except Err KeyFetchTokenItem :=
  match alookup s.keyFetchTokens id with
  | none => Except.error Err.notFound
  | some t =>
    match alookup s.accounts t.uid with
    | none => Except.error Err.jsTypeError
    | some a =>
      Except.ok
        { authKey := t.authKey, uid := t.uid, keyBundle := t.keyBundle,
          createdAt := t.createdAt, emailVerified := a.emailVerified,
          verifierSetAt := a.verifierSetAt }

/-- `passwordForgotToken(id)`: NotFound when absent; joined with the owning
account (unconditional dereference). -/
def passwordForgotToken (s : State) (id : String) : Except Err ForgotTokenItem :=
  match alookup s.passwordForgotTokens id with
  | none => Except.error Err.notFound
  | some t =>
    match alookup s.accounts t.uid with
    | none => Except.error Err.jsTypeError
    | some a =>
      Except.ok
        { tokenData := t.tokenData, uid := t.uid, passCode := t.passCode,
          tries := t.tries, createdAt := t.createdAt, email := a.email,
          verifierSetAt := a.verifierSetAt }

/-- `passwordChangeToken(id)`. -/
def passwordChangeToken (s : State) (id : String) : Except Err ChangeTokenItem :=
  match alookup s.passwordChangeTokens id with
  | none => Except.error Err.notFound
  | some t =>
    match alookup s.accounts t.uid with
    | none => Except.error Err.jsTypeError
    | some a =>
      Except.ok
        { tokenData := t.tokenData, uid := t.uid, createdAt := t.createdAt,
          email := a.email, verifierSetAt := a.verifierSetAt }

/-- `accountResetToken(id)`. -/
def accountResetToken (s : State) (id : String) : Except Err ResetTokenItem :=
  match alookup s.accountResetTokens id with
  | none => Except.error Err.notFound
  | some t =>
    match alookup s.accounts t.uid with
    | none => Except.error Err.jsTypeError
    | some a =>
      Except.ok
        { tokenData := t.tokenData, uid := t.uid, createdAt := t.createdAt,
          verifierSetAt := a.verifierSetAt }

/-! ## BATCH operations -/

/-- `verifyEmail(uid)`: set the flag; a missing account is a silent no-op. -/
def verifyEmail (s : State) (uid : String) : Except Err Unit × State :=
  match getAccountByUid s uid with
  | Except.ok account =>
    (Except.ok (), { s with accounts := aset s.accounts uid { account with emailVerified := 1 } })
  | Except.error _ => (Except.ok (), s)

/-- `unlockAccount(uid)`: clear the lock and drop the unlock code; a missing
account is masked as success. -/
def unlockAccount (s : State) (uid : String) : Except Err Unit × State :=
  match getAccountByUid s uid with
  | Except.ok account =>
    let account := { account with lockedAt := none }
    (Except.ok (), { s with
      accounts := aset s.accounts uid account,
      accountUnlockCodes := aerase s.accountUnlockCodes uid })
  | Except.error _ => (Except.ok (), s)

/-- `forgotPasswordVerified(tokenId, accountResetToken)`: `P.all` over four
synchronous sub-operations, which therefore run in order: delete the forgot
token, create the reset token, verify the email, unlock the account. -/
def forgotPasswordVerified (s : State) (tokenId : String) (t : ResetTokenPayload) :
    Except Err Unit × State :=
  let r1 := deletePasswordForgotToken s tokenId
  let r2 := createAccountResetToken r1.2 t.tokenId t
  let r3 := verifyEmail r2.2 t.uid
  let r4 := unlockAccount r3.2 t.uid
  let res : Except Err Unit := do
    _ ← r1.1
    _ ← r2.1
    _ ← r3.1
    _ ← r4.1
  (res, r4.2)

/-- `resetAccount(uid, data)`: NotFound when absent; cascade-delete every
owned token and the unlock code, clear the devices and overwrite the
credential fields. -/
def resetAccount (s : State) (uid : String) (data : ResetAccountData) :
    Except Err Unit × State :=
  match getAccountByUid s uid with
  | Except.error e => (Except.error e, s)
  | Except.ok account =>
    let account :=
      { account with
        verifyHash := data.verifyHash, authSalt := data.authSalt,
        wrapWrapKb := data.wrapWrapKb, verifierSetAt := data.verifierSetAt,
        verifierVersion := data.verifierVersion, devices := [] }
    (Except.ok (), { s with
      sessionTokens := deleteByUid SessionToken.uid uid s.sessionTokens,
      keyFetchTokens := deleteByUid KeyFetchToken.uid uid s.keyFetchTokens,
      accountResetTokens := deleteByUid ResetToken.uid uid s.accountResetTokens,
      passwordChangeTokens := deleteByUid ChangeToken.uid uid s.passwordChangeTokens,
      passwordForgotTokens := deleteByUid ForgotToken.uid uid s.passwordForgotTokens,
      accountUnlockCodes := deleteByUid UnlockCode.uid uid s.accountUnlockCodes,
      accounts := aset s.accounts uid account })

/-- `deleteAccount(uid)`: NotFound when absent; the cascade of
`resetAccount` plus removal of the index entries and the row itself.  With
no `openId`, `delete uidByOpenId[undefined]` targets the literal key
`"undefined"` (JS property-name coercion). -/
def deleteAccount (s : State) (uid : String) : Except Err Unit × State :=
  match getAccountByUid s uid with
  | Except.error e => (Except.error e, s)
  | Except.ok account =>
    (Except.ok (), { s with
      sessionTokens := deleteByUid SessionToken.uid uid s.sessionTokens,
      keyFetchTokens := deleteByUid KeyFetchToken.uid uid s.keyFetchTokens,
      accountResetTokens := deleteByUid ResetToken.uid uid s.accountResetTokens,
      passwordChangeTokens := deleteByUid ChangeToken.uid uid s.passwordChangeTokens,
      passwordForgotTokens := deleteByUid ForgotToken.uid uid s.passwordForgotTokens,
      accountUnlockCodes := deleteByUid UnlockCode.uid uid s.accountUnlockCodes,
      uidByNormalizedEmail := aerase s.uidByNormalizedEmail account.normalizedEmail,
      uidByOpenId := aerase s.uidByOpenId (account.openId.getD "undefined"),
      accounts := aerase s.accounts uid })

/-- `updateLocale(uid, data)`: NotFound when absent. -/
def updateLocale (s : State) (uid : String) (locale : Option String) :
    Except Err Unit × State :=
  match getAccountByUid s uid with
  | Except.error e => (Except.error e, s)
  | Except.ok account =>
    (Except.ok (), { s with accounts := aset s.accounts uid { account with locale := locale } })

/-- `lockAccount(uid, data)`: NotFound when absent; set the lock timestamp
and install the unlock code keyed by the account identifier. -/
def lockAccount (s : State) (uid : String) (data : LockData) : Except Err Unit × State :=
  match getAccountByUid s uid with
  | Except.error e => (Except.error e, s)
  | Except.ok account =>
    let account := { account with lockedAt := some data.lockedAt }
    (Except.ok (), { s with
      accounts := aset s.accounts uid account,
      accountUnlockCodes := aset s.accountUnlockCodes uid
        { uid := uid, unlockCode := data.unlockCode } })

/-- `unlockCode(uid)`: NotFound when no code is installed. -/
def unlockCode (s : State) (uid : String) : Except Err UnlockCode :=
  match alookup s.accountUnlockCodes uid with
  | none => Except.error Err.notFound
  | some code => Except.ok code

/-! ## UPDATE operations -/

/-- `updatePasswordForgotToken(id, data)`: NotFound when absent; overwrite
the tries counter. -/
def updatePasswordForgotToken (s : State) (id : String) (tries : Nat) :
    Except Err Unit × State :=
  match alookup s.passwordForgotTokens id with
  | none => (Except.error Err.notFound, s)
  | some token =>
    let token := { token with tries := tries }
    (Except.ok (), { s with passwordForgotTokens := aset s.passwordForgotTokens id token })

/-- `updateSessionToken(id, data)`: NotFound when absent; overwrite the UA
fields and `lastAccessTime`. -/
def updateSessionToken (s : State) (id : String) (data : UpdateSessionData) :
    Except Err Unit × State :=
  match alookup s.sessionTokens id with
  | none => (Except.error Err.notFound, s)
  | some token =>
    let token :=
      { token with
        uaBrowser := data.uaBrowser, uaBrowserVersion := data.uaBrowserVersion,
        uaOS := data.uaOS, uaOSVersion := data.uaOSVersion,
        uaDeviceType := data.uaDeviceType, lastAccessTime := data.lastAccessTime }
    (Except.ok (), { s with sessionTokens := aset s.sessionTokens id token })

/-! ## Session/device linkage invariant and reachability -/

/-- The `sessionTokenId` of the device registered under `dk`, when there is
one (`some none` = a device with a null binding, `none` = no such device). -/
def devSTid (a : Account) (dk : String) : Option (Option String) :=
  (alookup a.devices dk).map Device.sessionTokenId

/-- The device-relevant projection of an account row: the device keys with
their forward references. -/
def accProj (a : Account) : AList (Option String) :=
  a.devices.map (fun p => (p.1, p.2.sessionTokenId))

/-- Back-reference soundness: a session token with a truthy `deviceKey`
names a registered device of its owning account, and that device points
back at the token. -/
def Inv1Core (A : AList Account) (S : AList SessionToken) : Prop :=
  ∀ k t dk, alookup S k = some t → truthyStr t.deviceKey = some dk →
    ∃ a, alookup A t.uid = some a ∧ devSTid a dk = some (some k)

/-- Forward-reference ownership: a device's (nonempty) `sessionTokenId`
that names an existing session token names one owned by the device's own
account. -/
def J2Core (A : AList Account) (S : AList SessionToken) : Prop :=
  ∀ u a dk sk t, alookup A u = some a → devSTid a dk = some (some sk) → sk ≠ "" →
    alookup S sk = some t → t.uid = u

/-- Device collections have distinct keys (they model JS objects). -/
def J3Core (A : AList Account) : Prop :=
  ∀ u a, alookup A u = some a → (keysOf a.devices).Nodup

/-- The session table has distinct keys (it models a JS object). -/
def J4Core (S : AList SessionToken) : Prop := (keysOf S).Nodup

/-- The inductive linkage invariant over the two relevant tables. -/
def StoreInvCore (A : AList Account) (S : AList SessionToken) : Prop :=
  Inv1Core A S ∧ J2Core A S ∧ J3Core A ∧ J4Core S

/-- The inductive linkage invariant of a store state. -/
def StoreInv (s : State) : Prop := StoreInvCore s.accounts s.sessionTokens

/-- The claim-level invariant: every session token whose `deviceKey` is set
(truthy) names exactly one device of the owning account, and that device's
`sessionTokenId` equals the token's identifier. -/
def SessionDeviceInv (s : State) : Prop :=
  ∀ k t dk, alookup s.sessionTokens k = some t → truthyStr t.deviceKey = some dk →
    ∃ a d, alookup s.accounts t.uid = some a ∧
      a.devices.filter (fun p => p.1 = dk) = [(dk, d)] ∧
      d.sessionTokenId = some k

/-- Input discipline for `createDevice`/`updateDevice`: when the payload
names an existing session token, that token belongs to the account the
device operation is performed on (the source never checks this). -/
def SessionUidDiscipline (s : State) (uid : String) (info : DeviceInfo) : Prop :=
  ∀ sk t, info.sessionTokenId = some sk → sk ≠ "" →
    alookup s.sessionTokens sk = some t → t.uid = uid

/-- Input discipline for `createSessionToken`: the new identifier is not
already held as the forward reference of a device of a different account
(the source never checks this either). -/
def FreshTokenDiscipline (s : State) (tokenId : String) (uid : String) : Prop :=
  ∀ u a dk, alookup s.accounts u = some a → devSTid a dk = some (some tokenId) → u = uid

/-- States reachable from the empty store by the mutating operations, with
the two input disciplines above imposed on the device/session linkage
operations. -/
inductive Reach : State → Prop where
  | init : Reach initState
  | createAccount (s : State) (uid : String) (data : Account) :
      Reach s → Reach (createAccount s uid data).2
  | createSessionToken (s : State) (tokenId : String) (t : SessionTokenPayload) :
      Reach s → FreshTokenDiscipline s tokenId t.uid →
      Reach (createSessionToken s tokenId t).2
  | createKeyFetchToken (s : State) (tokenId : String) (t : KeyFetchPayload) :
      Reach s → Reach (createKeyFetchToken s tokenId t).2
  | createPasswordForgotToken (s : State) (tokenId : String) (t : ForgotTokenPayload) :
      Reach s → Reach (createPasswordForgotToken s tokenId t).2
  | createPasswordChangeToken (s : State) (tokenId : String) (t : ChangeTokenPayload) :
      Reach s → Reach (createPasswordChangeToken s tokenId t).2
  | createAccountResetToken (s : State) (tokenId : String) (t : ResetTokenPayload) :
      Reach s → Reach (createAccountResetToken s tokenId t).2
  | createDevice (s : State) (uid deviceId : String) (info : DeviceInfo) :
      Reach s → SessionUidDiscipline s uid info →
      Reach (createDevice s uid deviceId info).2
  | updateDevice (s : State) (uid deviceId : String) (info : DeviceInfo) :
      Reach s → SessionUidDiscipline s uid info →
      Reach (updateDevice s uid deviceId info).2
  | deleteSessionToken (s : State) (tokenId : String) :
      Reach s → Reach (deleteSessionToken s tokenId).2
  | deleteKeyFetchToken (s : State) (tokenId : String) :
      Reach s → Reach (deleteKeyFetchToken s tokenId).2
  | deleteAccountResetToken (s : State) (tokenId : String) :
      Reach s → Reach (deleteAccountResetToken s tokenId).2
  | deletePasswordForgotToken (s : State) (tokenId : String) :
      Reach s → Reach (deletePasswordForgotToken s tokenId).2
  | deletePasswordChangeToken (s : State) (tokenId : String) :
      Reach s → Reach (deletePasswordChangeToken s tokenId).2
  | deleteDevice (s : State) (uid deviceId : String) :
      Reach s → Reach (deleteDevice s uid deviceId).2
  | accountDevices (s : State) (uid : String) :
      Reach s → Reach (accountDevices s uid).2
  | verifyEmail (s : State) (uid : String) :
      Reach s → Reach (verifyEmail s uid).2
  | unlockAccount (s : State) (uid : String) :
      Reach s → Reach (unlockAccount s uid).2
  | forgotPasswordVerified (s : State) (tokenId : String) (t : ResetTokenPayload) :
      Reach s → Reach (forgotPasswordVerified s tokenId t).2
  | resetAccount (s : State) (uid : String) (data : ResetAccountData) :
      Reach s → Reach (resetAccount s uid data).2
  | deleteAccount (s : State) (uid : String) :
      Reach s → Reach (deleteAccount s uid).2
  | updateLocale (s : State) (uid : String) (locale : Option String) :
      Reach s → Reach (updateLocale s uid locale).2
  | lockAccount (s : State) (uid : String) (data : LockData) :
      Reach s → Reach (lockAccount s uid data).2
  | updatePasswordForgotToken (s : State) (id : String) (tries : Nat) :
      Reach s → Reach (updatePasswordForgotToken s id tries).2
  | updateSessionToken (s : State) (id : String) (data : UpdateSessionData) :
      Reach s → Reach (updateSessionToken s id data).2

/-! ## Concrete fixtures for counterexamples and witnesses -/

/-- A sample account-creation payload. -/
def fxAccountA : Account :=
  { normalizedEmail := "a@x", email := "A@X", openId := some "oid-a",
    verifyHash := some "beef", authSalt := "as", wrapWrapKb := "wk",
    verifierSetAt := 5, verifierVersion := 1, emailVerified := 0,
    emailCode := "ec", locale := some "en", createdAt := 10,
    lockedAt := none, devices := [] }

/-- A second payload whose normalized email differs from `fxAccountA` only
in case. -/
def fxAccountB : Account :=
  { fxAccountA with normalizedEmail := "A@X", email := "a2@x", openId := none }

/-- A sample session-token payload owned by `uid`. -/
def fxSessionPayload (uid : String) : SessionTokenPayload :=
  { data := "sd", uid := uid, createdAt := 7, uaBrowser := some "Firefox",
    uaBrowserVersion := some "40", uaOS := some "Linux",
    uaOSVersion := some "1", uaDeviceType := some "mobile" }

/-- A sample device payload binding the given session token. -/
def fxDeviceInfo (st : Option String) : DeviceInfo :=
  { sessionTokenId := st, name := some "dev", type' := some "mobile",
    createdAt := some 3, callbackURL := some "", callbackPublicKey := none }

/-- Store holding just the account `"aa"`. -/
def fxS1 : State := (createAccount initState "aa" fxAccountA).2

/-- `fxS1` plus a session token `"55"` owned by the absent account `"bb"`. -/
def fxS2 : State := (createSessionToken fxS1 "55" (fxSessionPayload "bb")).2

/-- `fxS2` after `createDevice` linked device `"dd"` of account `"aa"` to
the foreign session token `"55"`. -/
def fxS3 : State := (createDevice fxS2 "aa" "dd" (fxDeviceInfo (some "55"))).2

/-- `fxS3` plus session token `"66"` of `"aa"`. -/
def fxS4 : State := (createSessionToken fxS3 "66" (fxSessionPayload "aa")).2

/-- `fxS4` after device `"d2"` of `"aa"` was bound to token `"66"`. -/
def fxS5 : State := (createDevice fxS4 "aa" "d2" (fxDeviceInfo (some "66"))).2

/-- The `updateDevice` call that asks to move device `"dd"` onto the
already-bound token `"66"`; it fails with Duplicate after clearing the
back-reference of token `"55"`. -/
def fxU6 : Except Err Unit × State := updateDevice fxS5 "aa" "dd" (fxDeviceInfo (some "66"))

/-- Store with an account, a forgot token, a change token, a reset token,
a key-fetch token, two sessions and a lock, for delete/workflow witnesses. -/
def fxRich : State :=
  let sA := (createAccount initState "aa" fxAccountA).2
  let sB := (createAccount sA "bb" fxAccountB).2
  let s1 := (createSessionToken sB "55" (fxSessionPayload "aa")).2
  let s2 := (createSessionToken s1 "66" (fxSessionPayload "bb")).2
  let s3 := (createKeyFetchToken s2 "k1" { authKey := "ak", uid := "aa", keyBundle := "kb", createdAt := 3 }).2
  let s4 := (createPasswordForgotToken s3 "f1" { data := "fd", uid := "aa", passCode := "pc", tries := 3, createdAt := 9 }).2
  let s5 := (createPasswordChangeToken s4 "c1" { data := "cd", uid := "aa", createdAt := 9 }).2
  let s6 := (createAccountResetToken s5 "r0" { tokenId := "r0", uid := "aa", data := "rd0", createdAt := 9 }).2
  (lockAccount s6 "aa" { lockedAt := 44, unlockCode := "uc" }).2

/-- The reset-token payload used by the C4 witness. -/
def fxResetPayload : ResetTokenPayload :=
  { tokenId := "r1", uid := "aa", data := "rd", createdAt := 12 }

/-- The row stored for account `"aa"` once locked (as in `fxRich`). -/
def fxLockedA : Account := { fxAccountA with lockedAt := some 44 }

/-- The forgot-token row stored under `"f1"` in `fxRich`. -/
def fxForgotRow : ForgotToken :=
  { tokenData := "fd", uid := "aa", passCode := "pc", tries := 3, createdAt := 9 }

/-- A second forgot-token payload for the same account. -/
def fxForgotPayload2 : ForgotTokenPayload :=
  { data := "fd2", uid := "aa", passCode := "pc2", tries := 1, createdAt := 11 }

/-- `fxS1` plus a session token `"77"` owned by `"aa"`. -/
def fxS8 : State := (createSessionToken fxS1 "77" (fxSessionPayload "aa")).2

/-- The stored device `"dd"` of `fxS3`..`fxS5` (bound to token `"55"`). -/
def fxDeviceDD : Device :=
  { uid := "aa", id := "dd", sessionTokenId := some "55", name := some "dev",
    type' := some "mobile", createdAt := some 3, callbackURL := some "",
    callbackPublicKey := none, uaBrowser := some "Firefox",
    uaBrowserVersion := some "40", uaOS := some "Linux", uaOSVersion := some "1",
    uaDeviceType := some "mobile", lastAccessTime := some 7 }

/-- The stored device `"d2"` of `fxS5` (bound to token `"66"`). -/
def fxDeviceD2 : Device :=
  { fxDeviceDD with id := "d2", sessionTokenId := some "66" }

/-- The row stored for `"aa"` in `fxS5`: both devices registered. -/
def fxAccountAWithDevices : Account :=
  { fxAccountA with devices := [("dd", fxDeviceDD), ("d2", fxDeviceD2)] }

/-- The stored row a `createSessionToken` of `fxSessionPayload uid` makes. -/
def fxSessionRow (uid : String) : SessionToken :=
  { data := "sd", uid := uid, createdAt := 7, uaBrowser := some "Firefox",
    uaBrowserVersion := some "40", uaOS := some "Linux", uaOSVersion := some "1",
    uaDeviceType := some "mobile", lastAccessTime := 7, deviceKey := none }

/-- `fxS1` plus device `"d9"` of `"aa"` holding a dangling forward
reference to the not-yet-existing token `"99"`. -/
def fxT1 : State := (createDevice fxS1 "aa" "d9" (fxDeviceInfo (some "99"))).2

/-- `fxT1` plus session token `"99"`, created later and owned by the
absent account `"bb"`. -/
def fxT2 : State := (createSessionToken fxT1 "99" (fxSessionPayload "bb")).2

/-- `fxT2` after an `updateDevice` of `"d9"` carrying no session token:
the retained dangling reference now resolves and links the foreign token. -/
def fxT3 : State := (updateDevice fxT2 "aa" "d9" (fxDeviceInfo none)).2

/-- An account payload whose openId is the literal string `"undefined"` —
a legitimate (if unfortunate) openId value that collides with the JS
property-name coercion of `undefined`. -/
def fxAccountU : Account :=
  { fxAccountA with normalizedEmail := "u@x", email := "u@x", openId := some "undefined" }

/-- An account payload carrying no openId. -/
def fxAccountN : Account :=
  { fxAccountA with normalizedEmail := "n@x", email := "n@x", openId := none }

/-- Store holding the `"undefined"`-openId account `"uu"`. -/
def fxV1 : State := (createAccount initState "uu" fxAccountU).2

/-- `fxV1` plus the openId-less account `"nn"`. -/
def fxV2 : State := (createAccount fxV1 "nn" fxAccountN).2

/-! # Theorems -/

/-! ## Association-list lemmas -/

@[simp] theorem alookup_nil (k : String) : alookup ([] : AList V) k = none := rfl

theorem alookup_cons (k' : String) (v : V) (t : AList V) (k : String) :
    alookup ((k', v) :: t) k = if k' = k then some v else alookup t k := rfl

theorem keysOf_cons (k : String) (v : V) (t : AList V) :
    keysOf ((k, v) :: t) = k :: keysOf t := rfl

@[simp] theorem alookup_aset (l : AList V) (k : String) (v : V) (k' : String) :
    alookup (aset l k v) k' = if k = k' then some v else alookup l k' := by
  induction l with
  | nil => simp [aset, alookup]
  | cons p t ih =>
    obtain ⟨kp, vp⟩ := p
    by_cases h : kp = k
    · subst h
      simp only [aset, if_pos rfl, alookup]
      by_cases h' : kp = k'
      · simp [h']
      · simp [h']
    · simp only [aset, if_neg h, alookup]
      by_cases h' : kp = k'
      · subst h'
        have hkk : ¬ k = kp := fun hh => h hh.symm
        simp [hkk]
      · simp [h', ih]

@[simp] theorem alookup_aerase (l : AList V) (k : String) (k' : String) :
    alookup (aerase l k) k' = if k = k' then none else alookup l k' := by
  induction l with
  | nil => simp [aerase, alookup]
  | cons p t ih =>
    obtain ⟨kp, vp⟩ := p
    by_cases hk : kp = k
    · subst hk
      by_cases h' : kp = k'
      · subst h'
        simpa [aerase, List.filter_cons, alookup] using ih
      · simpa [aerase, List.filter_cons, alookup, h'] using ih
    · by_cases h' : kp = k'
      · subst h'
        have hkk : ¬ k = kp := fun hh => hk hh.symm
        simp [aerase, List.filter_cons, hk, alookup, hkk]
      · simpa [aerase, List.filter_cons, hk, alookup, h'] using ih

theorem alookup_mem {l : AList V} {k : String} {v : V}
    (h : alookup l k = some v) : (k, v) ∈ l := by
  induction l with
  | nil => simp [alookup] at h
  | cons p t ih =>
    obtain ⟨kp, vp⟩ := p
    by_cases hk : kp = k
    · subst hk
      simp [alookup] at h
      simp [h]
    · simp [alookup, hk] at h
      exact List.mem_cons_of_mem _ (ih h)

theorem fst_mem_keysOf {l : AList V} {p : String × V} (h : p ∈ l) : p.1 ∈ keysOf l :=
  List.mem_map_of_mem Prod.fst h

theorem alookup_filter_some {l : AList V} {p : String × V → Bool} {k : String} {v : V}
    (h : alookup (l.filter p) k = some v) : (k, v) ∈ l ∧ p (k, v) = true := by
  have hm := alookup_mem h
  exact ⟨List.mem_of_mem_filter hm, List.of_mem_filter hm⟩

/-- The first binding of a key survives a filter that keeps it, and stays first. -/
theorem alookup_filter_of_alookup {l : AList V} {p : String × V → Bool} {k : String} {v : V}
    (h : alookup l k = some v) (hp : p (k, v) = true) :
    alookup (l.filter p) k = some v := by
  induction l with
  | nil => simp [alookup] at h
  | cons q t ih =>
    obtain ⟨kq, vq⟩ := q
    by_cases hk : kq = k
    · subst hk
      have hv : vq = v := by simpa [alookup] using h
      subst hv
      rw [List.filter_cons]
      simp [hp, alookup]
    · have h' : alookup t k = some v := by simpa [alookup, hk] using h
      rw [List.filter_cons]
      cases hq : p (kq, vq) with
      | true => simpa [alookup, hk] using ih h'
      | false => simpa using ih h'

theorem alookup_eq_of_mem_of_nodup {l : AList V} {k : String} {v : V}
    (hnd : (keysOf l).Nodup) (h : (k, v) ∈ l) : alookup l k = some v := by
  induction l with
  | nil => simp at h
  | cons q t ih =>
    obtain ⟨kq, vq⟩ := q
    rw [keysOf_cons] at hnd
    have hnd1 := (List.nodup_cons.mp hnd).1
    have hnd2 := (List.nodup_cons.mp hnd).2
    rcases List.mem_cons.mp h with h1 | h1
    · cases h1
      simp [alookup]
    · have hk : kq ≠ k := by
        intro hkk
        subst hkk
        exact hnd1 (fst_mem_keysOf h1)
      simp only [alookup, if_neg hk]
      exact ih hnd2 h1

theorem alookup_filter_none_of_nodup {l : AList V} {p : String × V → Bool} {k : String} {v : V}
    (hnd : (keysOf l).Nodup) (h : alookup l k = some v) (hp : p (k, v) = false) :
    alookup (l.filter p) k = none := by
  cases hres : alookup (l.filter p) k with
  | none => rfl
  | some w =>
    obtain ⟨hmem, hpw⟩ := alookup_filter_some hres
    have := alookup_eq_of_mem_of_nodup hnd hmem
    rw [h] at this
    injection this with hvw
    subst hvw
    rw [hp] at hpw
    cases hpw

theorem keysOf_aset (l : AList V) (k : String) (v : V) (k' : String) :
    k' ∈ keysOf (aset l k v) ↔ k' = k ∨ k' ∈ keysOf l := by
  induction l with
  | nil =>
    show k' ∈ [k] ↔ k' = k ∨ k' ∈ ([] : List String)
    simp
  | cons q t ih =>
    obtain ⟨kq, vq⟩ := q
    by_cases hk : kq = k
    · subst hk
      have h1 : aset ((kq, vq) :: t) kq v = (kq, v) :: t := by simp [aset]
      rw [h1, keysOf_cons, keysOf_cons]
      simp only [List.mem_cons]
      tauto
    · have h1 : aset ((kq, vq) :: t) k v = (kq, vq) :: aset t k v := by simp [aset, hk]
      rw [h1, keysOf_cons, keysOf_cons]
      simp only [List.mem_cons, ih]
      tauto

theorem nodup_keysOf_aset {l : AList V} (k : String) (v : V)
    (hnd : (keysOf l).Nodup) : (keysOf (aset l k v)).Nodup := by
  induction l with
  | nil => simp [aset, keysOf]
  | cons q t ih =>
    obtain ⟨kq, vq⟩ := q
    rw [keysOf_cons] at hnd
    have hnd1 := (List.nodup_cons.mp hnd).1
    have hnd2 := (List.nodup_cons.mp hnd).2
    by_cases hk : kq = k
    · subst hk
      have h1 : aset ((kq, vq) :: t) kq v = (kq, v) :: t := by simp [aset]
      rw [h1, keysOf_cons]
      exact List.nodup_cons.mpr ⟨hnd1, hnd2⟩
    · have h1 : aset ((kq, vq) :: t) k v = (kq, vq) :: aset t k v := by simp [aset, hk]
      rw [h1, keysOf_cons]
      refine List.nodup_cons.mpr ⟨?_, ih hnd2⟩
      intro hmem
      rcases (keysOf_aset t k v kq).mp hmem with h2 | h2
      · exact hk h2
      · exact hnd1 h2

theorem nodup_keysOf_filter {l : AList V} (p : String × V → Bool)
    (hnd : (keysOf l).Nodup) : (keysOf (l.filter p)).Nodup :=
  List.Nodup.sublist (List.Sublist.map Prod.fst (List.filter_sublist l)) hnd

theorem alookup_map_val (l : AList V) (f : String → V → W) (k : String) :
    alookup (l.map (fun p => (p.1, f p.1 p.2))) k = (alookup l k).map (f k) := by
  induction l with
  | nil => simp [alookup]
  | cons q t ih =>
    obtain ⟨kq, vq⟩ := q
    by_cases hk : kq = k
    · subst hk
      simp [alookup]
    · simp [alookup, hk, ih]

theorem keysOf_map_val (l : AList V) (f : String → V → W) :
    keysOf (l.map (fun p => (p.1, f p.1 p.2))) = keysOf l := by
  induction l with
  | nil => rfl
  | cons q t ih =>
    obtain ⟨kq, vq⟩ := q
    show kq :: keysOf (t.map _) = kq :: keysOf t
    rw [ih]

/-- With distinct keys, the one binding of `k` is the looked-up one. -/
theorem filter_key_eq_singleton {l : AList V} {k : String} {v : V}
    (hnd : (keysOf l).Nodup) (h : alookup l k = some v) :
    l.filter (fun p => p.1 = k) = [(k, v)] := by
  induction l with
  | nil => simp [alookup] at h
  | cons q t ih =>
    obtain ⟨kq, vq⟩ := q
    rw [keysOf_cons] at hnd
    have hnd1 := (List.nodup_cons.mp hnd).1
    have hnd2 := (List.nodup_cons.mp hnd).2
    by_cases hk : kq = k
    · subst hk
      have hv : vq = v := by simpa [alookup] using h
      subst hv
      have hnil : t.filter (fun p => p.1 = kq) = [] := by
        apply List.filter_eq_nil_iff.mpr
        intro p hp
        simp only [decide_eq_true_eq]
        intro hpk
        exact hnd1 (hpk ▸ fst_mem_keysOf hp)
      rw [List.filter_cons]
      simp [hnil]
    · have h' : alookup t k = some v := by simpa [alookup, hk] using h
      rw [List.filter_cons]
      simp [hk, ih hnd2 h']


/-! ## Small facts about the helpers -/

theorem truthyStr_eq_self {o : Option String} (h : o ≠ some "") : truthyStr o = o := by
  cases o with
  | none => rfl
  | some v =>
    have : v ≠ "" := fun hv => h (by rw [hv])
    simp [truthyStr, this]

theorem truthyCell_some {u : String} (h : u ≠ "") :
    truthyCell (some u) = true := by simp [truthyCell, h]

/-! ## Claim C2 -/

/-- Claim C2 counterexample: `createAccount` performs no case folding on the
supplied `normalizedEmail`; two creates whose emails agree after case
folding but differ in case both succeed, and the index then holds the two
entries differing only in case. -/
theorem c2_counterexample :
    toLowerCase "a@x" = toLowerCase "A@X" ∧
    (createAccount initState "aa" fxAccountA).1 = Except.ok () ∧
    (createAccount fxS1 "bb" fxAccountB).1 = Except.ok () ∧
    alookup (createAccount fxS1 "bb" fxAccountB).2.uidByNormalizedEmail "a@x" = some "aa" ∧
    alookup (createAccount fxS1 "bb" fxAccountB).2.uidByNormalizedEmail "A@X" = some "bb" := by
  exact ⟨by decide, rfl, rfl, by decide, by decide⟩

/-- Claim C2, amended: when the second `createAccount` supplies the same
`normalizedEmail` string as a previously successful one (exact string
equality — the operation performs no case folding) and the first uid was
nonempty (a truthy index cell), the second call fails with Duplicate and
leaves the store unchanged. -/
theorem c2_theorem (s : State) (uid1 uid2 : String) (d1 d2 : Account) (s1 : State)
    (hne : uid1 ≠ "")
    (h1 : createAccount s uid1 d1 = (Except.ok (), s1))
    (heq : d2.normalizedEmail = d1.normalizedEmail) :
    createAccount s1 uid2 d2 = (Except.error Err.duplicate, s1) := by
  by_cases ha : (alookup s.accounts uid1).isSome
  · simp [createAccount, ha] at h1
  · by_cases hb : truthyCell (alookup s.uidByNormalizedEmail d1.normalizedEmail)
    · simp [createAccount, ha, hb] at h1
    · have hmail : alookup s1.uidByNormalizedEmail d1.normalizedEmail = some uid1 := by
        cases ho : truthyStr d1.openId with
        | some oid =>
          by_cases hc : truthyCell (alookup s.uidByOpenId oid)
          · simp [createAccount, ha, hb, ho, hc] at h1
          · simp [createAccount, ha, hb, ho, hc] at h1
            rw [← h1]
            simp
        | none =>
          simp [createAccount, ha, hb, ho] at h1
          rw [← h1]
          simp
      by_cases hd : (alookup s1.accounts uid2).isSome
      · simp [createAccount, hd]
      · have : truthyCell (alookup s1.uidByNormalizedEmail d2.normalizedEmail) = true := by
          rw [heq, hmail]
          exact truthyCell_some hne
        simp [createAccount, hd, this]

/-- Witness for the amended C2 at concrete inputs. -/
theorem c2_witness :
    createAccount fxS1 "bb" fxAccountA = (Except.error Err.duplicate, fxS1) :=
  c2_theorem initState "aa" "bb" fxAccountA fxAccountA fxS1 (by decide) rfl rfl

/-! ## Claim C3 -/

/-- Claim C3: `checkPassword` rejects with IncorrectPassword both for an
absent account and for a present account whose stored verify hash differs
from the supplied one, never rejects with NotFound, and resolves with the
uid exactly when the account exists and the hashes are equal. -/
theorem c3_theorem (s : State) (uid vh : String) :
    (alookup s.accounts uid = none →
      checkPassword s uid vh = Except.error Err.incorrectPassword) ∧
    (∀ a stored, alookup s.accounts uid = some a → a.verifyHash = some stored →
      stored ≠ vh → checkPassword s uid vh = Except.error Err.incorrectPassword) ∧
    checkPassword s uid vh ≠ Except.error Err.notFound ∧
    (∀ a stored, alookup s.accounts uid = some a → a.verifyHash = some stored →
      (checkPassword s uid vh = Except.ok uid ↔ stored = vh)) := by
  refine ⟨?_, ?_, ?_, ?_⟩
  · intro h
    simp [checkPassword, getAccountByUid, h]
  · intro a stored hacc hvh hne
    simp [checkPassword, getAccountByUid, hacc, hvh, hne]
  · cases hacc : alookup s.accounts uid with
    | none => simp [checkPassword, getAccountByUid, hacc]
    | some a =>
      cases hvh : a.verifyHash with
      | none => simp [checkPassword, getAccountByUid, hacc, hvh]
      | some stored =>
        by_cases he : stored = vh <;>
          simp [checkPassword, getAccountByUid, hacc, hvh, he]
  · intro a stored hacc hvh
    by_cases he : stored = vh <;>
      simp [checkPassword, getAccountByUid, hacc, hvh, he]

/-- Witness for C3 at concrete inputs: absent uid, wrong hash, right hash. -/
theorem c3_witness :
    checkPassword fxS1 "zz" "beef" = Except.error Err.incorrectPassword ∧
    checkPassword fxS1 "aa" "dead" = Except.error Err.incorrectPassword ∧
    checkPassword fxS1 "aa" "beef" = Except.ok "aa" :=
  ⟨(c3_theorem fxS1 "zz" "beef").1 rfl,
   (c3_theorem fxS1 "aa" "dead").2.1 fxAccountA "beef" rfl rfl (by decide),
   ((c3_theorem fxS1 "aa" "beef").2.2.2 fxAccountA "beef" rfl rfl).mpr rfl⟩

/-! ## Claim C7 -/

/-- Claim C7: every successful `account`, `emailRecord` or `openIdRecord`
read returns the filtered view of the stored row — the `verifyHash` field
is absent (`none`) and every other field equals the stored one. -/
theorem c7_theorem (s : State) (uid email openId : String) :
    (∀ v, account s uid = Except.ok v →
      ∃ a, alookup s.accounts uid = some a ∧ v = filterAccount a) ∧
    (∀ v, emailRecord s email = Except.ok v →
      ∃ u a, alookup s.uidByNormalizedEmail (toLowerCase email) = some u ∧
        alookup s.accounts u = some a ∧ v = filterAccount a) ∧
    (∀ v, openIdRecord s openId = Except.ok v →
      ∃ u a, alookup s.uidByOpenId openId = some u ∧
        alookup s.accounts u = some a ∧ v = filterAccount a) ∧
    (∀ a : Account, (filterAccount a).verifyHash = none ∧
      (filterAccount a).normalizedEmail = a.normalizedEmail ∧
      (filterAccount a).email = a.email ∧
      (filterAccount a).openId = a.openId ∧
      (filterAccount a).authSalt = a.authSalt ∧
      (filterAccount a).wrapWrapKb = a.wrapWrapKb ∧
      (filterAccount a).verifierSetAt = a.verifierSetAt ∧
      (filterAccount a).verifierVersion = a.verifierVersion ∧
      (filterAccount a).emailVerified = a.emailVerified ∧
      (filterAccount a).emailCode = a.emailCode ∧
      (filterAccount a).locale = a.locale ∧
      (filterAccount a).createdAt = a.createdAt ∧
      (filterAccount a).lockedAt = a.lockedAt ∧
      (filterAccount a).devices = a.devices) := by
  refine ⟨?_, ?_, ?_, ?_⟩
  · intro v hv
    cases hacc : alookup s.accounts uid with
    | none => simp [account, getAccountByUid, hacc] at hv
    | some a =>
      refine ⟨a, rfl, ?_⟩
      simp [account, getAccountByUid, hacc] at hv
      exact hv.symm
  · intro v hv
    cases hcell : alookup s.uidByNormalizedEmail (toLowerCase email) with
    | none => simp [emailRecord, getAccountByUidCell, hcell] at hv
    | some u =>
      by_cases hu : u = ""
      · simp [emailRecord, getAccountByUidCell, hcell, hu] at hv
      · cases hacc : alookup s.accounts u with
        | none => simp [emailRecord, getAccountByUidCell, getAccountByUid, hcell, hu, hacc] at hv
        | some a =>
          refine ⟨u, a, rfl, hacc, ?_⟩
          simp [emailRecord, getAccountByUidCell, getAccountByUid, hcell, hu, hacc] at hv
          exact hv.symm
  · intro v hv
    cases hcell : alookup s.uidByOpenId openId with
    | none => simp [openIdRecord, getAccountByUidCell, hcell] at hv
    | some u =>
      by_cases hu : u = ""
      · simp [openIdRecord, getAccountByUidCell, hcell, hu] at hv
      · cases hacc : alookup s.accounts u with
        | none => simp [openIdRecord, getAccountByUidCell, getAccountByUid, hcell, hu, hacc] at hv
        | some a =>
          refine ⟨u, a, rfl, hacc, ?_⟩
          simp [openIdRecord, getAccountByUidCell, getAccountByUid, hcell, hu, hacc] at hv
          exact hv.symm
  · intro a
    refine ⟨rfl, rfl, rfl, rfl, rfl, rfl, rfl, rfl, rfl, rfl, rfl, rfl, rfl, rfl⟩

/-- Witness for C7: the concrete filtered read of account `"aa"`. -/
theorem c7_witness :
    ∃ a, alookup fxS1.accounts "aa" = some a ∧ filterAccount fxAccountA = filterAccount a :=
  (c7_theorem fxS1 "aa" "a@x" "oid-a").1 (filterAccount fxAccountA) rfl

/-! ## Claim C10 -/

/-- Claim C10: `createSessionToken` never checks the owning account, so it
succeeds for any uid whenever the identifier is fresh; the enrichment step
of the `sessionToken` read dereferences the owning account unconditionally,
aborting with a `TypeError` exactly when that account is absent, and
returning a normal result when it is present. -/
theorem c10_theorem (s : State) (tokenId : String) (p : SessionTokenPayload) :
    (alookup s.sessionTokens tokenId = none →
      (createSessionToken s tokenId p).1 = Except.ok ()) ∧
    (∀ t, alookup s.sessionTokens tokenId = some t →
      ((sessionToken s tokenId = Except.error Err.jsTypeError) ↔
        alookup s.accounts t.uid = none) ∧
      (∀ a, alookup s.accounts t.uid = some a →
        ∃ item, sessionToken s tokenId = Except.ok item)) := by
  constructor
  · intro h
    simp [createSessionToken, h]
  · intro t ht
    constructor
    · cases hacc : alookup s.accounts t.uid with
      | none => simp [sessionToken, ht, hacc]
      | some a => simp [sessionToken, ht, hacc]
    · intro a hacc
      have hread : sessionToken s tokenId = Except.ok
          { tokenData := t.data, uid := t.uid, createdAt := t.createdAt,
            uaBrowser := truthyStr t.uaBrowser, uaBrowserVersion := truthyStr t.uaBrowserVersion,
            uaOS := truthyStr t.uaOS, uaOSVersion := truthyStr t.uaOSVersion,
            uaDeviceType := truthyStr t.uaDeviceType, lastAccessTime := t.lastAccessTime,
            emailVerified := a.emailVerified, email := a.email, emailCode := a.emailCode,
            verifierSetAt := a.verifierSetAt, locale := a.locale,
            accountCreatedAt := a.createdAt } := by
        simp [sessionToken, ht, hacc]
      exact ⟨_, hread⟩

/-- Witness for C10: creating a token for the absent account `"bb"`
succeeds, reading it aborts with the TypeError, and a token of the present
account `"aa"` reads normally. -/
theorem c10_witness :
    (createSessionToken fxS1 "55" (fxSessionPayload "bb")).1 = Except.ok () ∧
    sessionToken fxS2 "55" = Except.error Err.jsTypeError ∧
    ∃ item, sessionToken fxRich "55" = Except.ok item := by
  refine ⟨(c10_theorem fxS1 "55" (fxSessionPayload "bb")).1 rfl, ?_, ?_⟩
  · exact (((c10_theorem fxS2 "55" (fxSessionPayload "bb")).2 _ rfl).1).mpr rfl
  · exact ((c10_theorem fxRich "55" (fxSessionPayload "aa")).2 _ rfl).2 _ rfl

/-! ## Claim C4 -/

/-- Claim C4: a `forgotPasswordVerified` call for an account with a live
forgot token succeeds and leaves the forgot token absent, the supplied
reset token present (and the only reset token of that account), the email
flag set, the lock cleared and the unlock code removed. -/
theorem c4_theorem (s : State) (a : Account) (ft : ForgotToken) (fid : String)
    (p : ResetTokenPayload)
    (hacc : alookup s.accounts p.uid = some a)
    (hft : alookup s.passwordForgotTokens fid = some ft) (huid : ft.uid = p.uid) :
    (forgotPasswordVerified s fid p).1 = Except.ok () ∧
    alookup (forgotPasswordVerified s fid p).2.passwordForgotTokens fid = none ∧
    alookup (forgotPasswordVerified s fid p).2.accountResetTokens p.tokenId =
      some { tokenData := p.data, uid := p.uid, createdAt := p.createdAt } ∧
    (∀ k t, alookup (forgotPasswordVerified s fid p).2.accountResetTokens k = some t →
      t.uid = p.uid → k = p.tokenId) ∧
    alookup (forgotPasswordVerified s fid p).2.accounts p.uid =
      some { a with emailVerified := 1, lockedAt := none } ∧
    alookup (forgotPasswordVerified s fid p).2.accountUnlockCodes p.uid = none := by
  refine ⟨?_, ?_, ?_, ?_, ?_, ?_⟩
  · simp [forgotPasswordVerified, deletePasswordForgotToken, createAccountResetToken,
      verifyEmail, unlockAccount, getAccountByUid, hacc]
    rfl
  · simp [forgotPasswordVerified, deletePasswordForgotToken, createAccountResetToken,
      verifyEmail, unlockAccount, getAccountByUid, hacc]
  · simp [forgotPasswordVerified, deletePasswordForgotToken, createAccountResetToken,
      verifyEmail, unlockAccount, getAccountByUid, hacc]
  · intro k t hk hkuid
    by_cases hkt : k = p.tokenId
    · exact hkt
    · have hne' : p.tokenId ≠ k := fun h => hkt h.symm
      simp [forgotPasswordVerified, deletePasswordForgotToken, createAccountResetToken,
        verifyEmail, unlockAccount, getAccountByUid, hacc, hne', deleteByUid] at hk
      obtain ⟨hmem, hpred⟩ := alookup_filter_some hk
      simp [hkuid] at hpred
  · simp [forgotPasswordVerified, deletePasswordForgotToken, createAccountResetToken,
      verifyEmail, unlockAccount, getAccountByUid, hacc]
  · simp [forgotPasswordVerified, deletePasswordForgotToken, createAccountResetToken,
      verifyEmail, unlockAccount, getAccountByUid, hacc]

/-- Witness for C4 on the populated fixture store. -/
theorem c4_witness :
    (forgotPasswordVerified fxRich "f1" fxResetPayload).1 = Except.ok () ∧
    alookup (forgotPasswordVerified fxRich "f1" fxResetPayload).2.passwordForgotTokens "f1" = none ∧
    alookup (forgotPasswordVerified fxRich "f1" fxResetPayload).2.accountResetTokens "r1" =
      some { tokenData := "rd", uid := "aa", createdAt := 12 } ∧
    (∀ k t, alookup (forgotPasswordVerified fxRich "f1" fxResetPayload).2.accountResetTokens k = some t →
      t.uid = "aa" → k = "r1") ∧
    alookup (forgotPasswordVerified fxRich "f1" fxResetPayload).2.accounts "aa" =
      some { fxLockedA with emailVerified := 1, lockedAt := none } ∧
    alookup (forgotPasswordVerified fxRich "f1" fxResetPayload).2.accountUnlockCodes "aa" = none :=
  c4_theorem fxRich fxLockedA fxForgotRow "f1" fxResetPayload rfl rfl rfl

/-! ## Claim C6 -/

/-- Claim C6: `createPasswordForgotToken` fails with Duplicate when the new
identifier is already a row; on a fresh identifier it succeeds, removing
every other forgot token of the same account — a subsequent read of such a
removed identifier fails with NotFound — so the table holds at most one row
per account. -/
theorem c6_theorem (s : State) (tokenId : String) (p : ForgotTokenPayload)
    (hnd : (keysOf s.passwordForgotTokens).Nodup) :
    ((alookup s.passwordForgotTokens tokenId).isSome →
      createPasswordForgotToken s tokenId p = (Except.error Err.duplicate, s)) ∧
    (alookup s.passwordForgotTokens tokenId = none →
      (createPasswordForgotToken s tokenId p).1 = Except.ok () ∧
      alookup (createPasswordForgotToken s tokenId p).2.passwordForgotTokens tokenId =
        some { tokenData := p.data, uid := p.uid, passCode := p.passCode,
               tries := p.tries, createdAt := p.createdAt } ∧
      (∀ k t, alookup s.passwordForgotTokens k = some t → t.uid = p.uid → k ≠ tokenId →
        alookup (createPasswordForgotToken s tokenId p).2.passwordForgotTokens k = none ∧
        passwordForgotToken (createPasswordForgotToken s tokenId p).2 k =
          Except.error Err.notFound) ∧
      (∀ k t, alookup (createPasswordForgotToken s tokenId p).2.passwordForgotTokens k = some t →
        t.uid = p.uid → k = tokenId)) := by
  constructor
  · intro h
    simp [createPasswordForgotToken, h]
  · intro h
    have hfresh : (alookup s.passwordForgotTokens tokenId).isSome = false := by
      simp [h]
    refine ⟨?_, ?_, ?_, ?_⟩
    · simp [createPasswordForgotToken, hfresh]
    · simp [createPasswordForgotToken, hfresh]
    · intro k t hk hkuid hne
      have hne' : tokenId ≠ k := fun h => hne h.symm
      have hnone : alookup
          (createPasswordForgotToken s tokenId p).2.passwordForgotTokens k = none := by
        simp only [createPasswordForgotToken, hfresh, Bool.false_eq_true, if_false,
          alookup_aset, if_neg hne']
        have hx := alookup_filter_none_of_nodup hnd hk
          (p := fun q => ForgotToken.uid q.2 != p.uid) (by simp [hkuid])
        simpa [deleteByUid] using hx
      refine ⟨hnone, ?_⟩
      simp [passwordForgotToken, hnone]
    · intro k t hk hkuid
      by_cases hkt : k = tokenId
      · exact hkt
      · have hne' : tokenId ≠ k := fun h => hkt h.symm
        simp only [createPasswordForgotToken, hfresh, Bool.false_eq_true, if_false,
          alookup_aset, if_neg hne', deleteByUid] at hk
        obtain ⟨hmem, hpred⟩ := alookup_filter_some hk
        simp [hkuid] at hpred

/-- Witness for C6: on the fixture store, re-creating `"f1"` is a
Duplicate, while creating `"f2"` for the same account removes `"f1"`. -/
theorem c6_witness :
    createPasswordForgotToken fxRich "f1" fxForgotPayload2 =
      (Except.error Err.duplicate, fxRich) ∧
    alookup (createPasswordForgotToken fxRich "f2" fxForgotPayload2).2.passwordForgotTokens "f1" =
      none ∧
    passwordForgotToken (createPasswordForgotToken fxRich "f2" fxForgotPayload2).2 "f1" =
      Except.error Err.notFound := by
  have h := c6_theorem fxRich "f2" fxForgotPayload2 (by decide)
  have h2 := (h.2 rfl).2.2.1 "f1" fxForgotRow rfl rfl (by decide)
  exact ⟨(c6_theorem fxRich "f1" fxForgotPayload2 (by decide)).1 rfl, h2.1, h2.2⟩

/-! ## Claim C8 -/

/-- Claim C8: after a successful `createSessionToken`, reading the same
identifier returns exactly the supplied UA fields (which are either absent
or nonempty, so the falsy-collapse is the identity), `lastAccessTime`
equal to the supplied `createdAt`, and the join of the owning account's
current fields. -/
theorem c8_theorem (s : State) (tokenId : String) (p : SessionTokenPayload)
    (s1 : State) (a : Account)
    (hc : createSessionToken s tokenId p = (Except.ok (), s1))
    (hacc : alookup s1.accounts p.uid = some a)
    (h1 : p.uaBrowser ≠ some "") (h2 : p.uaBrowserVersion ≠ some "")
    (h3 : p.uaOS ≠ some "") (h4 : p.uaOSVersion ≠ some "") (h5 : p.uaDeviceType ≠ some "") :
    sessionToken s1 tokenId = Except.ok
      { tokenData := p.data, uid := p.uid, createdAt := p.createdAt,
        uaBrowser := p.uaBrowser, uaBrowserVersion := p.uaBrowserVersion,
        uaOS := p.uaOS, uaOSVersion := p.uaOSVersion, uaDeviceType := p.uaDeviceType,
        lastAccessTime := p.createdAt, emailVerified := a.emailVerified,
        email := a.email, emailCode := a.emailCode, verifierSetAt := a.verifierSetAt,
        locale := a.locale, accountCreatedAt := a.createdAt } := by
  by_cases hdup : (alookup s.sessionTokens tokenId).isSome
  · simp [createSessionToken, hdup] at hc
  · simp only [createSessionToken, hdup, Bool.false_eq_true, if_false] at hc
    obtain ⟨-, hs1⟩ := Prod.mk.injEq .. ▸ hc
    subst hs1
    simp only [] at hacc
    simp [sessionToken, hacc, truthyStr_eq_self h1, truthyStr_eq_self h2,
      truthyStr_eq_self h3, truthyStr_eq_self h4, truthyStr_eq_self h5]

/-- Witness for C8 on concrete data. -/
theorem c8_witness :
    sessionToken fxS8 "77" = Except.ok
      { tokenData := "sd", uid := "aa", createdAt := 7,
        uaBrowser := some "Firefox", uaBrowserVersion := some "40",
        uaOS := some "Linux", uaOSVersion := some "1", uaDeviceType := some "mobile",
        lastAccessTime := 7, emailVerified := fxAccountA.emailVerified,
        email := fxAccountA.email, emailCode := fxAccountA.emailCode,
        verifierSetAt := fxAccountA.verifierSetAt, locale := fxAccountA.locale,
        accountCreatedAt := fxAccountA.createdAt } :=
  c8_theorem fxS1 "77" (fxSessionPayload "aa") fxS8 fxAccountA rfl rfl (by decide)
    (by decide) (by decide) (by decide) (by decide)

/-! ## Claim C9 -/

/-- A device whose bound session token is absent is returned by
`accountDevices` unchanged (no mirror refresh happens for it). -/
theorem accountDevices_stale_mem (s' : State) (uid : String) (a : Account)
    (dk : String) (d : Device)
    (hacc : alookup s'.accounts uid = some a) (hd : alookup a.devices dk = some d)
    (hnone : alookup s'.sessionTokens (strVal d.sessionTokenId) = none) :
    d ∈ (accountDevices s' uid).1 := by
  have hstep : accountDevicesStep s'.sessionTokens d = d := by
    simp [accountDevicesStep, hnone]
  have hmem : (dk, d) ∈ a.devices := alookup_mem hd
  have hmem2 : (dk, d) ∈ a.devices.map
      (fun p => (p.1, accountDevicesStep s'.sessionTokens p.2)) := by
    have := List.mem_map_of_mem
      (fun (p : String × Device) => (p.1, accountDevicesStep s'.sessionTokens p.2)) hmem
    simpa [hstep] using this
  simp only [accountDevices, hacc]
  exact List.mem_map_of_mem Prod.snd hmem2

/-- Claim C9: `deleteSessionToken` succeeds, erases only the session-token
row, leaves every other table (devices included) untouched, and a
subsequent `accountDevices` listing still returns any device bound to the
deleted token, carrying the stale `sessionTokenId`. -/
theorem c9_theorem (s : State) (tokenId : String) :
    (deleteSessionToken s tokenId).1 = Except.ok () ∧
    (deleteSessionToken s tokenId).2.accounts = s.accounts ∧
    (deleteSessionToken s tokenId).2.uidByNormalizedEmail = s.uidByNormalizedEmail ∧
    (deleteSessionToken s tokenId).2.uidByOpenId = s.uidByOpenId ∧
    (deleteSessionToken s tokenId).2.keyFetchTokens = s.keyFetchTokens ∧
    (deleteSessionToken s tokenId).2.accountResetTokens = s.accountResetTokens ∧
    (deleteSessionToken s tokenId).2.passwordChangeTokens = s.passwordChangeTokens ∧
    (deleteSessionToken s tokenId).2.passwordForgotTokens = s.passwordForgotTokens ∧
    (deleteSessionToken s tokenId).2.accountUnlockCodes = s.accountUnlockCodes ∧
    alookup (deleteSessionToken s tokenId).2.sessionTokens tokenId = none ∧
    (∀ k, k ≠ tokenId →
      alookup (deleteSessionToken s tokenId).2.sessionTokens k = alookup s.sessionTokens k) ∧
    (∀ uid a dk d, alookup s.accounts uid = some a → alookup a.devices dk = some d →
      d.sessionTokenId = some tokenId →
      d ∈ (accountDevices (deleteSessionToken s tokenId).2 uid).1) := by
  by_cases hs : (alookup s.sessionTokens tokenId).isSome
  · have hst : deleteSessionToken s tokenId =
        (Except.ok (), { s with sessionTokens := aerase s.sessionTokens tokenId }) := by
      simp [deleteSessionToken, hs]
    rw [hst]
    refine ⟨rfl, rfl, rfl, rfl, rfl, rfl, rfl, rfl, rfl, ?_, ?_, ?_⟩
    · simp
    · intro k hk
      simp only [alookup_aerase]
      rw [if_neg (fun hh => hk hh.symm)]
    · intro uid a dk d hacc hd hstid
      refine accountDevices_stale_mem _ uid a dk d hacc hd ?_
      simp [hstid, strVal]
  · have hnone : alookup s.sessionTokens tokenId = none := by
      simpa using hs
    have hst : deleteSessionToken s tokenId = (Except.ok (), s) := by
      simp [deleteSessionToken, hs]
    rw [hst]
    refine ⟨rfl, rfl, rfl, rfl, rfl, rfl, rfl, rfl, rfl, hnone, fun k hk => rfl, ?_⟩
    intro uid a dk d hacc hd hstid
    exact accountDevices_stale_mem s uid a dk d hacc hd (by simpa [hstid, strVal] using hnone)

/-- Witness for C9: after deleting token `"66"`, device `"d2"` is still
listed for account `"aa"` with the stale binding. -/
theorem c9_witness :
    fxDeviceD2 ∈ (accountDevices (deleteSessionToken fxS5 "66").2 "aa").1 :=
  (c9_theorem fxS5 "66").2.2.2.2.2.2.2.2.2.2.2 "aa" fxAccountAWithDevices "d2" fxDeviceD2
    rfl rfl rfl

/-! ## Claim C5 -/

theorem deleteByUid_lookup_ne {V : Type} (getUid : V → String) (uid : String)
    (l : AList V) (k : String) (t : V)
    (h : alookup (deleteByUid getUid uid l) k = some t) : getUid t ≠ uid := by
  obtain ⟨hm, hp⟩ := alookup_filter_some (p := fun q => getUid q.2 != uid) (by simpa [deleteByUid] using h)
  simpa using hp

theorem deleteByUid_lookup_keep {V : Type} (getUid : V → String) (uid : String)
    (l : AList V) (k : String) (t : V)
    (h : alookup l k = some t) (hne : getUid t ≠ uid) :
    alookup (deleteByUid getUid uid l) k = some t := by
  have hx := alookup_filter_of_alookup (p := fun q => getUid q.2 != uid) h (by simpa using hne)
  simpa [deleteByUid] using hx

/-- Claim C5 counterexample: for an account with no openId the source
executes `delete uidByOpenId[account.openId]` with the property name
`undefined` coerced to the literal key `"undefined"`; deleting such an
account therefore removes another, surviving account's entry legitimately
indexed under the openId string `"undefined"` — the claim's frame part
("every other account's index entries unchanged") fails. -/
theorem c5_counterexample :
    (createAccount initState "uu" fxAccountU).1 = Except.ok () ∧
    (createAccount fxV1 "nn" fxAccountN).1 = Except.ok () ∧
    alookup fxV2.uidByOpenId "undefined" = some "uu" ∧
    (deleteAccount fxV2 "nn").1 = Except.ok () ∧
    (alookup (deleteAccount fxV2 "nn").2.accounts "uu").isSome = true ∧
    alookup (deleteAccount fxV2 "nn").2.uidByOpenId "undefined" = none :=
  ⟨rfl, rfl, rfl, rfl, rfl, rfl⟩

/-- Claim C5, amended: deleting an existing account removes its row, its
normalized-email index entry, every owned row of every token/unlock table,
and the openId index entry under the key that is the account's openId when
present and the literal string `"undefined"` when absent (JS property-name
coercion); every row owned by another account and every other index key is
unchanged; an absent uid fails with NotFound leaving the store unchanged.
In particular the deletion of an openId-less account erases any entry
indexed under the openId string `"undefined"`, even another account's. -/
theorem c5_theorem (s : State) (uid : String) :
    (alookup s.accounts uid = none → deleteAccount s uid = (Except.error Err.notFound, s)) ∧
    (∀ a, alookup s.accounts uid = some a →
      (deleteAccount s uid).1 = Except.ok () ∧
      alookup (deleteAccount s uid).2.accounts uid = none ∧
      (∀ u, u ≠ uid → alookup (deleteAccount s uid).2.accounts u = alookup s.accounts u) ∧
      alookup (deleteAccount s uid).2.uidByNormalizedEmail a.normalizedEmail = none ∧
      (∀ e, e ≠ a.normalizedEmail →
        alookup (deleteAccount s uid).2.uidByNormalizedEmail e =
          alookup s.uidByNormalizedEmail e) ∧
      alookup (deleteAccount s uid).2.uidByOpenId (a.openId.getD "undefined") = none ∧
      (∀ o, o ≠ a.openId.getD "undefined" →
        alookup (deleteAccount s uid).2.uidByOpenId o = alookup s.uidByOpenId o) ∧
      (∀ k t, alookup (deleteAccount s uid).2.sessionTokens k = some t → t.uid ≠ uid) ∧
      (∀ k t, alookup s.sessionTokens k = some t → t.uid ≠ uid →
        alookup (deleteAccount s uid).2.sessionTokens k = some t) ∧
      (∀ k t, alookup (deleteAccount s uid).2.keyFetchTokens k = some t → t.uid ≠ uid) ∧
      (∀ k t, alookup s.keyFetchTokens k = some t → t.uid ≠ uid →
        alookup (deleteAccount s uid).2.keyFetchTokens k = some t) ∧
      (∀ k t, alookup (deleteAccount s uid).2.accountResetTokens k = some t → t.uid ≠ uid) ∧
      (∀ k t, alookup s.accountResetTokens k = some t → t.uid ≠ uid →
        alookup (deleteAccount s uid).2.accountResetTokens k = some t) ∧
      (∀ k t, alookup (deleteAccount s uid).2.passwordChangeTokens k = some t → t.uid ≠ uid) ∧
      (∀ k t, alookup s.passwordChangeTokens k = some t → t.uid ≠ uid →
        alookup (deleteAccount s uid).2.passwordChangeTokens k = some t) ∧
      (∀ k t, alookup (deleteAccount s uid).2.passwordForgotTokens k = some t → t.uid ≠ uid) ∧
      (∀ k t, alookup s.passwordForgotTokens k = some t → t.uid ≠ uid →
        alookup (deleteAccount s uid).2.passwordForgotTokens k = some t) ∧
      (∀ k t, alookup (deleteAccount s uid).2.accountUnlockCodes k = some t → t.uid ≠ uid) ∧
      (∀ k t, alookup s.accountUnlockCodes k = some t → t.uid ≠ uid →
        alookup (deleteAccount s uid).2.accountUnlockCodes k = some t)) := by
  constructor
  · intro h
    simp [deleteAccount, getAccountByUid, h]
  · intro a hacc
    have hst : deleteAccount s uid = (Except.ok (), { s with
        sessionTokens := deleteByUid SessionToken.uid uid s.sessionTokens,
        keyFetchTokens := deleteByUid KeyFetchToken.uid uid s.keyFetchTokens,
        accountResetTokens := deleteByUid ResetToken.uid uid s.accountResetTokens,
        passwordChangeTokens := deleteByUid ChangeToken.uid uid s.passwordChangeTokens,
        passwordForgotTokens := deleteByUid ForgotToken.uid uid s.passwordForgotTokens,
        accountUnlockCodes := deleteByUid UnlockCode.uid uid s.accountUnlockCodes,
        uidByNormalizedEmail := aerase s.uidByNormalizedEmail a.normalizedEmail,
        uidByOpenId := aerase s.uidByOpenId (a.openId.getD "undefined"),
        accounts := aerase s.accounts uid }) := by
      simp [deleteAccount, getAccountByUid, hacc]
    rw [hst]
    refine ⟨rfl, by simp, ?_, by simp, ?_, by simp, ?_,
      fun k t h => deleteByUid_lookup_ne _ _ _ _ _ h,
      fun k t h hne => deleteByUid_lookup_keep _ _ _ _ _ h hne,
      fun k t h => deleteByUid_lookup_ne _ _ _ _ _ h,
      fun k t h hne => deleteByUid_lookup_keep _ _ _ _ _ h hne,
      fun k t h => deleteByUid_lookup_ne _ _ _ _ _ h,
      fun k t h hne => deleteByUid_lookup_keep _ _ _ _ _ h hne,
      fun k t h => deleteByUid_lookup_ne _ _ _ _ _ h,
      fun k t h hne => deleteByUid_lookup_keep _ _ _ _ _ h hne,
      fun k t h => deleteByUid_lookup_ne _ _ _ _ _ h,
      fun k t h hne => deleteByUid_lookup_keep _ _ _ _ _ h hne,
      fun k t h => deleteByUid_lookup_ne _ _ _ _ _ h,
      fun k t h hne => deleteByUid_lookup_keep _ _ _ _ _ h hne⟩
    · intro u hu
      simp only [alookup_aerase]
      rw [if_neg (fun hh => hu hh.symm)]
    · intro e he
      simp only [alookup_aerase]
      rw [if_neg (fun hh => he hh.symm)]
    · intro o ho
      simp only [alookup_aerase]
      rw [if_neg (fun hh => ho hh.symm)]

/-- Witness for the amended C5: on the two-account fixture store account
`"aa"` (which carries an openId) is gone with both index entries while
account `"bb"` and its session survive; on the `fxV2` store the deletion of
the openId-less account `"nn"` erases the index key `"undefined"`; an
absent uid is NotFound. -/
theorem c5_witness :
    (deleteAccount fxRich "aa").1 = Except.ok () ∧
    alookup (deleteAccount fxRich "aa").2.accounts "aa" = none ∧
    alookup (deleteAccount fxRich "aa").2.accounts "bb" = alookup fxRich.accounts "bb" ∧
    alookup (deleteAccount fxRich "aa").2.uidByNormalizedEmail "a@x" = none ∧
    alookup (deleteAccount fxRich "aa").2.uidByOpenId "oid-a" = none ∧
    alookup (deleteAccount fxRich "aa").2.sessionTokens "66" = some (fxSessionRow "bb") ∧
    alookup (deleteAccount fxV2 "nn").2.uidByOpenId "undefined" = none ∧
    deleteAccount initState "zz" = (Except.error Err.notFound, initState) := by
  have h := (c5_theorem fxRich "aa").2 fxLockedA rfl
  have hv := (c5_theorem fxV2 "nn").2 fxAccountN rfl
  exact ⟨h.1, h.2.1, h.2.2.1 "bb" (by decide), h.2.2.2.1, h.2.2.2.2.2.1,
    h.2.2.2.2.2.2.2.2.1 "66" (fxSessionRow "bb") rfl (by decide),
    hv.2.2.2.2.2.1,
    (c5_theorem initState "zz").1 rfl⟩

/-! ## Claim C1: preservation of the linkage invariant -/

theorem getAccountByUid_ok {s : State} {uid : String} {a : Account} :
    getAccountByUid s uid = Except.ok a ↔ alookup s.accounts uid = some a := by
  unfold getAccountByUid
  cases h : alookup s.accounts uid <;> simp

theorem storeInv_init : StoreInv initState := by
  refine ⟨?_, ?_, ?_, ?_⟩
  · intro k t dk h
    simp [initState] at h
  · intro u a dk sk t h
    simp [initState] at h
  · intro u a h
    simp [initState] at h
  · simp [initState, J4Core, keysOf]

theorem storeInv_of_eq {s s' : State} (ha : s'.accounts = s.accounts)
    (hs : s'.sessionTokens = s.sessionTokens) (h : StoreInv s) : StoreInv s' := by
  unfold StoreInv
  rw [ha, hs]
  exact h

/-- Replacing one account by one with the same device keys and forward
references preserves the invariant. -/
theorem storeInvCore_set_account {s : State} {uid : String} {a a' : Account}
    (h : StoreInv s) (hacc : alookup s.accounts uid = some a)
    (hdev : ∀ dk, devSTid a' dk = devSTid a dk)
    (hkeys : keysOf a'.devices = keysOf a.devices) :
    StoreInvCore (aset s.accounts uid a') s.sessionTokens := by
  obtain ⟨h1, h2, h3, h4⟩ := h
  refine ⟨?_, ?_, ?_, h4⟩
  · intro k t dk hk hdk
    obtain ⟨b, hb, hd⟩ := h1 k t dk hk hdk
    by_cases hu : t.uid = uid
    · subst hu
      rw [hacc] at hb
      injection hb with hb
      subst hb
      exact ⟨a', by simp, by rw [hdev]; exact hd⟩
    · refine ⟨b, ?_, hd⟩
      rw [alookup_aset]
      rw [if_neg (fun hh => hu hh.symm)]
      exact hb
  · intro u b dk sk t hb hd hsk ht
    rw [alookup_aset] at hb
    by_cases hu : uid = u
    · subst hu
      rw [if_pos rfl] at hb
      injection hb with hb
      subst hb
      exact h2 uid a dk sk t hacc (by rw [← hdev]; exact hd) hsk ht
    · rw [if_neg hu] at hb
      exact h2 u b dk sk t hb hd hsk ht
  · intro u b hb
    rw [alookup_aset] at hb
    by_cases hu : uid = u
    · subst hu
      rw [if_pos rfl] at hb
      injection hb with hb
      subst hb
      rw [hkeys]
      exact h3 uid a hacc
    · rw [if_neg hu] at hb
      exact h3 u b hb

/-- Replacing one session token by one with the same owner and
back-reference preserves the invariant. -/
theorem storeInvCore_set_session {s : State} {id : String} {t t' : SessionToken}
    (h : StoreInv s) (ht : alookup s.sessionTokens id = some t)
    (huid : t'.uid = t.uid) (hdk : t'.deviceKey = t.deviceKey) :
    StoreInvCore s.accounts (aset s.sessionTokens id t') := by
  obtain ⟨h1, h2, h3, h4⟩ := h
  refine ⟨?_, ?_, h3, nodup_keysOf_aset _ _ h4⟩
  · intro k u dk hk hdku
    rw [alookup_aset] at hk
    by_cases hik : id = k
    · subst hik
      rw [if_pos rfl] at hk
      injection hk with hk
      subst hk
      rw [hdk] at hdku
      obtain ⟨a, ha, hd⟩ := h1 id t dk ht hdku
      exact ⟨a, by rw [huid]; exact ha, hd⟩
    · rw [if_neg hik] at hk
      exact h1 k u dk hk hdku
  · intro u a dk sk tk ha hd hsk htk
    rw [alookup_aset] at htk
    by_cases hik : id = sk
    · subst hik
      rw [if_pos rfl] at htk
      injection htk with htk
      subst htk
      rw [huid]
      exact h2 u a dk id t ha hd hsk ht
    · rw [if_neg hik] at htk
      exact h2 u a dk sk tk ha hd hsk htk

/-- Clearing a session token's back-reference preserves the invariant. -/
theorem storeInvCore_clear_dk {s : State} {k : String} {t : SessionToken}
    (h : StoreInv s) (ht : alookup s.sessionTokens k = some t) :
    StoreInvCore s.accounts (aset s.sessionTokens k { t with deviceKey := none }) := by
  obtain ⟨h1, h2, h3, h4⟩ := h
  refine ⟨?_, ?_, h3, nodup_keysOf_aset _ _ h4⟩
  · intro k' u dk hk hdku
    rw [alookup_aset] at hk
    by_cases hik : k = k'
    · subst hik
      rw [if_pos rfl] at hk
      injection hk with hk
      subst hk
      simp [truthyStr] at hdku
    · rw [if_neg hik] at hk
      exact h1 k' u dk hk hdku
  · intro u a dk sk tk ha hd hsk htk
    rw [alookup_aset] at htk
    by_cases hik : k = sk
    · subst hik
      rw [if_pos rfl] at htk
      injection htk with htk
      subst htk
      exact h2 u a dk k t ha hd hsk ht
    · rw [if_neg hik] at htk
      exact h2 u a dk sk tk ha hd hsk htk

theorem storeInv_createKeyFetchToken (s : State) (tokenId : String) (t : KeyFetchPayload)
    (h : StoreInv s) : StoreInv (createKeyFetchToken s tokenId t).2 := by
  refine storeInv_of_eq ?_ ?_ h <;>
    · unfold createKeyFetchToken
      split <;> rfl

theorem storeInv_createPasswordForgotToken (s : State) (tokenId : String)
    (t : ForgotTokenPayload) (h : StoreInv s) :
    StoreInv (createPasswordForgotToken s tokenId t).2 := by
  refine storeInv_of_eq ?_ ?_ h <;>
    · unfold createPasswordForgotToken
      split <;> rfl

theorem storeInv_createPasswordChangeToken (s : State) (tokenId : String)
    (t : ChangeTokenPayload) (h : StoreInv s) :
    StoreInv (createPasswordChangeToken s tokenId t).2 := by
  refine storeInv_of_eq ?_ ?_ h <;>
    · unfold createPasswordChangeToken
      split <;> rfl

theorem storeInv_createAccountResetToken (s : State) (tokenId : String)
    (t : ResetTokenPayload) (h : StoreInv s) :
    StoreInv (createAccountResetToken s tokenId t).2 :=
  storeInv_of_eq rfl rfl h

theorem storeInv_deleteKeyFetchToken (s : State) (tokenId : String) (h : StoreInv s) :
    StoreInv (deleteKeyFetchToken s tokenId).2 :=
  storeInv_of_eq rfl rfl h

theorem storeInv_deleteAccountResetToken (s : State) (tokenId : String) (h : StoreInv s) :
    StoreInv (deleteAccountResetToken s tokenId).2 :=
  storeInv_of_eq rfl rfl h

theorem storeInv_deletePasswordForgotToken (s : State) (tokenId : String) (h : StoreInv s) :
    StoreInv (deletePasswordForgotToken s tokenId).2 :=
  storeInv_of_eq rfl rfl h

theorem storeInv_deletePasswordChangeToken (s : State) (tokenId : String) (h : StoreInv s) :
    StoreInv (deletePasswordChangeToken s tokenId).2 :=
  storeInv_of_eq rfl rfl h

theorem storeInv_updatePasswordForgotToken (s : State) (id : String) (tries : Nat)
    (h : StoreInv s) : StoreInv (updatePasswordForgotToken s id tries).2 := by
  refine storeInv_of_eq ?_ ?_ h <;>
    · unfold updatePasswordForgotToken
      split <;> rfl

theorem storeInv_verifyEmail (s : State) (uid : String) (h : StoreInv s) :
    StoreInv (verifyEmail s uid).2 := by
  rcases hg : getAccountByUid s uid with e | a
  · simp only [verifyEmail, hg]
    exact h
  · have hacc := getAccountByUid_ok.mp hg
    simp only [verifyEmail, hg]
    exact storeInvCore_set_account h hacc (fun dk => rfl) rfl

theorem storeInv_unlockAccount (s : State) (uid : String) (h : StoreInv s) :
    StoreInv (unlockAccount s uid).2 := by
  rcases hg : getAccountByUid s uid with e | a
  · simp only [unlockAccount, hg]
    exact h
  · have hacc := getAccountByUid_ok.mp hg
    simp only [unlockAccount, hg]
    exact storeInvCore_set_account h hacc (fun dk => rfl) rfl

theorem storeInv_updateLocale (s : State) (uid : String) (locale : Option String)
    (h : StoreInv s) : StoreInv (updateLocale s uid locale).2 := by
  rcases hg : getAccountByUid s uid with e | a
  · simp only [updateLocale, hg]
    exact h
  · have hacc := getAccountByUid_ok.mp hg
    simp only [updateLocale, hg]
    exact storeInvCore_set_account h hacc (fun dk => rfl) rfl

theorem storeInv_lockAccount (s : State) (uid : String) (data : LockData)
    (h : StoreInv s) : StoreInv (lockAccount s uid data).2 := by
  rcases hg : getAccountByUid s uid with e | a
  · simp only [lockAccount, hg]
    exact h
  · have hacc := getAccountByUid_ok.mp hg
    simp only [lockAccount, hg]
    exact storeInvCore_set_account h hacc (fun dk => rfl) rfl

theorem storeInv_updateSessionToken (s : State) (id : String) (data : UpdateSessionData)
    (h : StoreInv s) : StoreInv (updateSessionToken s id data).2 := by
  cases ht : alookup s.sessionTokens id with
  | none =>
    simp only [updateSessionToken, ht]
    exact h
  | some t =>
    simp only [updateSessionToken, ht]
    exact storeInvCore_set_session h ht rfl rfl

theorem storeInvCore_erase_session {s : State} (k : String) (h : StoreInv s) :
    StoreInvCore s.accounts (aerase s.sessionTokens k) := by
  obtain ⟨h1, h2, h3, h4⟩ := h
  refine ⟨?_, ?_, h3, nodup_keysOf_filter _ h4⟩
  · intro k' t dk hk hdk
    rw [alookup_aerase] at hk
    by_cases hik : k = k'
    · rw [if_pos hik] at hk
      cases hk
    · rw [if_neg hik] at hk
      exact h1 k' t dk hk hdk
  · intro u a dk sk t ha hd hsk ht
    rw [alookup_aerase] at ht
    by_cases hik : k = sk
    · rw [if_pos hik] at ht
      cases ht
    · rw [if_neg hik] at ht
      exact h2 u a dk sk t ha hd hsk ht

theorem storeInv_deleteSessionToken (s : State) (tokenId : String) (h : StoreInv s) :
    StoreInv (deleteSessionToken s tokenId).2 := by
  by_cases hs : (alookup s.sessionTokens tokenId).isSome
  · simp only [deleteSessionToken, hs, if_true]
    exact storeInvCore_erase_session tokenId h
  · simp only [deleteSessionToken, hs, Bool.false_eq_true, if_false]
    exact h

theorem storeInvCore_new_account {s : State} {uid : String} {a : Account}
    (h : StoreInv s) (hfresh : alookup s.accounts uid = none) (hdev : a.devices = []) :
    StoreInvCore (aset s.accounts uid a) s.sessionTokens := by
  obtain ⟨h1, h2, h3, h4⟩ := h
  refine ⟨?_, ?_, ?_, h4⟩
  · intro k t dk hk hdk
    obtain ⟨b, hb, hd⟩ := h1 k t dk hk hdk
    by_cases hu : uid = t.uid
    · rw [← hu, hfresh] at hb
      cases hb
    · refine ⟨b, ?_, hd⟩
      rw [alookup_aset, if_neg hu]
      exact hb
  · intro u b dk sk t hb hd hsk ht
    rw [alookup_aset] at hb
    by_cases hu : uid = u
    · rw [if_pos hu] at hb
      injection hb with hb
      subst hb
      rw [devSTid, hdev] at hd
      simp [alookup] at hd
    · rw [if_neg hu] at hb
      exact h2 u b dk sk t hb hd hsk ht
  · intro u b hb
    rw [alookup_aset] at hb
    by_cases hu : uid = u
    · rw [if_pos hu] at hb
      injection hb with hb
      subst hb
      rw [hdev]
      simp [keysOf]
    · rw [if_neg hu] at hb
      exact h3 u b hb

theorem storeInv_createAccount (s : State) (uid : String) (data : Account)
    (h : StoreInv s) : StoreInv (createAccount s uid data).2 := by
  by_cases ha : (alookup s.accounts uid).isSome
  · simp only [createAccount, ha, if_true]
    exact h
  · have hfresh : alookup s.accounts uid = none := by simpa using ha
    by_cases hb : truthyCell (alookup s.uidByNormalizedEmail data.normalizedEmail)
    · simp only [createAccount, ha, hb, Bool.false_eq_true, if_false, if_true]
      exact h
    · cases ho : truthyStr data.openId with
      | some oid =>
        by_cases hc : truthyCell (alookup s.uidByOpenId oid)
        · simp only [createAccount, ha, hb, ho, hc, Bool.false_eq_true, if_false, if_true]
          exact h
        · simp only [createAccount, ha, hb, ho, hc, Bool.false_eq_true, if_false]
          exact storeInvCore_new_account h hfresh rfl
      | none =>
        simp only [createAccount, ha, hb, ho, Bool.false_eq_true, if_false]
        exact storeInvCore_new_account h hfresh rfl

theorem storeInv_createSessionToken (s : State) (tokenId : String) (t : SessionTokenPayload)
    (h : StoreInv s) (hdisc : FreshTokenDiscipline s tokenId t.uid) :
    StoreInv (createSessionToken s tokenId t).2 := by
  obtain ⟨h1, h2, h3, h4⟩ := h
  by_cases hdup : (alookup s.sessionTokens tokenId).isSome
  · simp only [createSessionToken, hdup, if_true]
    exact ⟨h1, h2, h3, h4⟩
  · simp only [createSessionToken, hdup, Bool.false_eq_true, if_false]
    refine ⟨?_, ?_, h3, nodup_keysOf_aset _ _ h4⟩
    · intro k u dk hk hdk
      rw [alookup_aset] at hk
      by_cases hik : tokenId = k
      · rw [if_pos hik] at hk
        injection hk with hk
        subst hk
        simp [truthyStr] at hdk
      · rw [if_neg hik] at hk
        exact h1 k u dk hk hdk
    · intro u a dk sk tk ha hd hsk htk
      rw [alookup_aset] at htk
      by_cases hik : tokenId = sk
      · rw [if_pos hik] at htk
        injection htk with htk
        subst htk
        subst hik
        exact (hdisc u a dk ha hd).symm
      · rw [if_neg hik] at htk
        exact h2 u a dk sk tk ha hd hsk htk

theorem accountDevicesStep_sTid (S : AList SessionToken) (d : Device) :
    (accountDevicesStep S d).sessionTokenId = d.sessionTokenId := by
  unfold accountDevicesStep
  split <;> rfl

theorem storeInv_accountDevices (s : State) (uid : String) (h : StoreInv s) :
    StoreInv (accountDevices s uid).2 := by
  cases hacc : alookup s.accounts uid with
  | none =>
    simp only [accountDevices, hacc]
    exact h
  | some a =>
    simp only [accountDevices, hacc]
    refine storeInvCore_set_account h hacc ?_ ?_
    · intro dk
      show ((alookup (a.devices.map
        (fun p => (p.1, accountDevicesStep s.sessionTokens p.2))) dk).map Device.sessionTokenId) =
        (alookup a.devices dk).map Device.sessionTokenId
      rw [alookup_map_val a.devices (fun _ d => accountDevicesStep s.sessionTokens d) dk]
      cases alookup a.devices dk with
      | none => rfl
      | some d =>
        simp [accountDevicesStep_sTid]
    · exact keysOf_map_val a.devices (fun _ d => accountDevicesStep s.sessionTokens d)

theorem storeInv_forgotPasswordVerified (s : State) (tokenId : String) (t : ResetTokenPayload)
    (h : StoreInv s) : StoreInv (forgotPasswordVerified s tokenId t).2 := by
  unfold forgotPasswordVerified
  exact storeInv_unlockAccount _ _ (storeInv_verifyEmail _ _
    (storeInv_createAccountResetToken _ _ _ (storeInv_deletePasswordForgotToken _ _ h)))

/-- Lookup in a uid-cascaded session table is a lookup in the original one
(given distinct keys), owned by someone else. -/
theorem deleteByUid_sessions_lookup {S : AList SessionToken} {uid k : String}
    {t : SessionToken} (h4 : (keysOf S).Nodup)
    (h : alookup (deleteByUid SessionToken.uid uid S) k = some t) :
    alookup S k = some t ∧ t.uid ≠ uid := by
  have hm := alookup_filter_some (p := fun q => SessionToken.uid q.2 != uid)
    (by simpa [deleteByUid] using h)
  exact ⟨alookup_eq_of_mem_of_nodup h4 hm.1, by simpa using hm.2⟩

theorem storeInv_resetAccount (s : State) (uid : String) (data : ResetAccountData)
    (h : StoreInv s) : StoreInv (resetAccount s uid data).2 := by
  rcases hg : getAccountByUid s uid with e | account
  · simp only [resetAccount, hg]
    exact h
  · obtain ⟨h1, h2, h3, h4⟩ := h
    simp only [resetAccount, hg]
    refine ⟨?_, ?_, ?_, ?_⟩
    · intro k t dk hk hdk
      obtain ⟨ht, hne⟩ := deleteByUid_sessions_lookup h4 hk
      obtain ⟨b, hb, hd⟩ := h1 k t dk ht hdk
      refine ⟨b, ?_, hd⟩
      rw [alookup_aset, if_neg (fun hh => hne hh.symm)]
      exact hb
    · intro u b dk sk t hb hd hsk ht
      rw [alookup_aset] at hb
      obtain ⟨ht', hne⟩ := deleteByUid_sessions_lookup h4 ht
      by_cases hu : uid = u
      · rw [if_pos hu] at hb
        injection hb with hb
        subst hb
        rw [devSTid] at hd
        simp only [alookup_nil, Option.map_none] at hd
        cases hd
      · rw [if_neg hu] at hb
        exact h2 u b dk sk t hb hd hsk ht'
    · intro u b hb
      rw [alookup_aset] at hb
      by_cases hu : uid = u
      · rw [if_pos hu] at hb
        injection hb with hb
        subst hb
        simp [keysOf]
      · rw [if_neg hu] at hb
        exact h3 u b hb
    · exact nodup_keysOf_filter _ h4

theorem storeInv_deleteAccount (s : State) (uid : String) (h : StoreInv s) :
    StoreInv (deleteAccount s uid).2 := by
  rcases hg : getAccountByUid s uid with e | account
  · simp only [deleteAccount, hg]
    exact h
  · obtain ⟨h1, h2, h3, h4⟩ := h
    simp only [deleteAccount, hg]
    refine ⟨?_, ?_, ?_, ?_⟩
    · intro k t dk hk hdk
      obtain ⟨ht, hne⟩ := deleteByUid_sessions_lookup h4 hk
      obtain ⟨b, hb, hd⟩ := h1 k t dk ht hdk
      refine ⟨b, ?_, hd⟩
      rw [alookup_aerase, if_neg (fun hh => hne hh.symm)]
      exact hb
    · intro u b dk sk t hb hd hsk ht
      rw [alookup_aerase] at hb
      obtain ⟨ht', hne⟩ := deleteByUid_sessions_lookup h4 ht
      by_cases hu : uid = u
      · rw [if_pos hu] at hb
        cases hb
      · rw [if_neg hu] at hb
        exact h2 u b dk sk t hb hd hsk ht'
    · intro u b hb
      rw [alookup_aerase] at hb
      by_cases hu : uid = u
      · rw [if_pos hu] at hb
        cases hb
      · rw [if_neg hu] at hb
        exact h3 u b hb
    · exact nodup_keysOf_filter _ h4

theorem storeInv_deleteDevice (s : State) (uid deviceId : String) (h : StoreInv s) :
    StoreInv (deleteDevice s uid deviceId).2 := by
  rcases hg : getAccountByUid s uid with e | account
  · simp only [deleteDevice, hg]
    exact h
  · have hacc := getAccountByUid_ok.mp hg
    cases hdev : alookup account.devices deviceId with
    | none =>
      simp only [deleteDevice, hg, hdev]
      exact h
    | some device =>
      obtain ⟨h1, h2, h3, h4⟩ := h
      simp only [deleteDevice, hg, hdev]
      refine ⟨?_, ?_, ?_, ?_⟩
      · intro k t dk hk hdk
        rw [alookup_aerase] at hk
        by_cases hik : strVal device.sessionTokenId = k
        · rw [if_pos hik] at hk
          cases hk
        · rw [if_neg hik] at hk
          obtain ⟨b, hb, hd⟩ := h1 k t dk hk hdk
          by_cases hu : t.uid = uid
          · rw [hu, hacc] at hb
            injection hb with hb
            subst hb
            by_cases hdd : dk = deviceId
            · subst hdd
              rw [devSTid, hdev] at hd
              have hd' : device.sessionTokenId = some k := by simpa using hd
              exact absurd (by rw [hd']; rfl) hik
            · refine ⟨{ account with devices := aerase account.devices deviceId }, ?_, ?_⟩
              · rw [hu, alookup_aset, if_pos rfl]
              · show (alookup (aerase account.devices deviceId) dk).map
                  Device.sessionTokenId = some (some k)
                rw [alookup_aerase, if_neg (fun hh => hdd hh.symm)]
                exact hd
          · refine ⟨b, ?_, hd⟩
            rw [alookup_aset, if_neg (fun hh => hu hh.symm)]
            exact hb
      · intro u b dk sk t hb hd hsk ht
        rw [alookup_aerase] at ht
        by_cases hik : strVal device.sessionTokenId = sk
        · rw [if_pos hik] at ht
          cases ht
        · rw [if_neg hik] at ht
          rw [alookup_aset] at hb
          by_cases hu : uid = u
          · rw [if_pos hu] at hb
            injection hb with hb
            subst hb
            have hd2 : (alookup (aerase account.devices deviceId) dk).map
                Device.sessionTokenId = some (some sk) := hd
            rw [alookup_aerase] at hd2
            by_cases hdd : deviceId = dk
            · rw [if_pos hdd] at hd2
              cases hd2
            · rw [if_neg hdd] at hd2
              exact h2 u account dk sk t (hu ▸ hacc) hd2 hsk ht
          · rw [if_neg hu] at hb
            exact h2 u b dk sk t hb hd hsk ht
      · intro u b hb
        rw [alookup_aset] at hb
        by_cases hu : uid = u
        · rw [if_pos hu] at hb
          injection hb with hb
          subst hb
          exact nodup_keysOf_filter _ (h3 uid account hacc)
        · rw [if_neg hu] at hb
          exact h3 u b hb
      · exact nodup_keysOf_filter _ h4

theorem updateDeviceRecord_ok {s : State} {device : Device} {info : DeviceInfo}
    {deviceKey : String} {d : Device} {s' : State}
    (h : updateDeviceRecord s device info deviceKey = Except.ok (d, s')) :
    d.sessionTokenId = mergeField device.sessionTokenId info.sessionTokenId ∧
    ((∃ sk session, info.sessionTokenId = some sk ∧ sk ≠ "" ∧
        alookup s.sessionTokens sk = some session ∧
        d = mirrorSessionFields (mergeDeviceFields device info) session ∧
        s' = { s with sessionTokens := aset s.sessionTokens sk { session with deviceKey := some deviceKey } }) ∨
      (d = mergeDeviceFields device info ∧ s' = s ∧
        ∀ sk, info.sessionTokenId = some sk → sk ≠ "" →
          alookup s.sessionTokens sk = none)) := by
  cases hsk : info.sessionTokenId with
  | none =>
    simp only [updateDeviceRecord, hsk, strVal, Option.getD] at h
    simp only [ne_eq, not_true_eq_false, if_false, reduceIte] at h
    injection h with h
    obtain ⟨hd, hs⟩ := Prod.mk.injEq .. ▸ h
    refine ⟨by rw [← hd]; simp [mergeDeviceFields, hsk], Or.inr ⟨hd.symm, hs.symm, ?_⟩⟩
    intro sk hsk2
    cases hsk2
  | some sk =>
    by_cases hsk0 : sk = ""
    · subst hsk0
      simp only [updateDeviceRecord, hsk, strVal, Option.getD] at h
      simp only [ne_eq, not_true_eq_false, if_false, reduceIte] at h
      injection h with h
      obtain ⟨hd, hs⟩ := Prod.mk.injEq .. ▸ h
      refine ⟨by rw [← hd]; simp [mergeDeviceFields, hsk], Or.inr ⟨hd.symm, hs.symm, ?_⟩⟩
      intro sk' hsk2 hne
      injection hsk2 with hsk2
      exact absurd hsk2.symm hne
    · cases hses : alookup s.sessionTokens sk with
      | none =>
        simp only [updateDeviceRecord, hsk, strVal, Option.getD, hsk0, if_neg, hses] at h
        simp only [ne_eq, hsk0, not_false_eq_true, if_true, hses] at h
        injection h with h
        obtain ⟨hd, hs⟩ := Prod.mk.injEq .. ▸ h
        refine ⟨by rw [← hd]; simp [mergeDeviceFields, hsk], Or.inr ⟨hd.symm, hs.symm, ?_⟩⟩
        intro sk' hsk2 hne
        injection hsk2 with hsk2
        rw [← hsk2]
        exact hses
      | some session =>
        cases hdk : truthyStr session.deviceKey with
        | some dk =>
          by_cases hne : dk = deviceKey
          · subst hne
            simp [updateDeviceRecord, hsk, strVal, hsk0, hses, hdk] at h
            obtain ⟨hd, hs⟩ := h
            refine ⟨?_, Or.inl ⟨sk, session, rfl, hsk0, hses, hd.symm, hs.symm⟩⟩
            rw [← hd]
            simp [mirrorSessionFields, mergeDeviceFields, hsk]
          · simp [updateDeviceRecord, hsk, strVal, hsk0, hses, hdk, hne] at h
        | none =>
          simp [updateDeviceRecord, hsk, strVal, hsk0, hses, hdk] at h
          obtain ⟨hd, hs⟩ := h
          refine ⟨?_, Or.inl ⟨sk, session, rfl, hsk0, hses, hd.symm, hs.symm⟩⟩
          rw [← hd]
          simp [mirrorSessionFields, mergeDeviceFields, hsk]

theorem mergeField_none {α : Type} (x : Option α) : mergeField none x = x := by
  cases x <;> rfl

theorem truthyStr_some {x y : String} (h : truthyStr (some x) = some y) :
    y = x ∧ x ≠ "" := by
  by_cases hx : x = ""
  · simp [truthyStr, hx] at h
  · simp [truthyStr, hx] at h
    exact ⟨h.symm, hx⟩

theorem devSTid_aset (a : Account) (dk0 : String) (d : Device) (dk : String) :
    devSTid { a with devices := aset a.devices dk0 d } dk =
      if dk0 = dk then some d.sessionTokenId else devSTid a dk := by
  show (alookup (aset a.devices dk0 d) dk).map Device.sessionTokenId = _
  rw [alookup_aset]
  by_cases h : dk0 = dk <;> simp [h, devSTid]

theorem storeInv_createDevice (s : State) (uid deviceId : String) (info : DeviceInfo)
    (h : StoreInv s) (hdisc : SessionUidDiscipline s uid info) :
    StoreInv (createDevice s uid deviceId info).2 := by
  rcases hg : getAccountByUid s uid with e | account
  · simp only [createDevice, hg]
    exact h
  · have hacc := getAccountByUid_ok.mp hg
    by_cases hdup : (alookup account.devices deviceId).isSome
    · simp only [createDevice, hg, hdup, if_true]
      exact h
    · have hfresh : alookup account.devices deviceId = none := by simpa using hdup
      rcases hrec : updateDeviceRecord s
          { uid := uid, id := deviceId, sessionTokenId := none, name := none,
            type' := none, createdAt := none, callbackURL := none,
            callbackPublicKey := none, uaBrowser := none, uaBrowserVersion := none,
            uaOS := none, uaOSVersion := none, uaDeviceType := none,
            lastAccessTime := none } info deviceId with e | ds
      · simp only [createDevice, hg, hdup, Bool.false_eq_true, if_false, hrec]
        exact h
      · obtain ⟨d, s1⟩ := ds
        simp only [createDevice, hg, hdup, Bool.false_eq_true, if_false, hrec]
        obtain ⟨hstid0, hcase⟩ := updateDeviceRecord_ok hrec
        have hstid : d.sessionTokenId = info.sessionTokenId := by
          rw [hstid0]
          exact mergeField_none _
        obtain ⟨h1, h2, h3, h4⟩ := h
        rcases hcase with ⟨sk, session, hsk, hsk0, hses, hd, hs1⟩ | ⟨hd, hs1, hcond⟩
        · subst hs1
          have huidses : session.uid = uid := hdisc sk session hsk hsk0 hses
          have hdsk : d.sessionTokenId = some sk := by rw [hstid, hsk]
          refine ⟨?_, ?_, ?_, nodup_keysOf_aset _ _ h4⟩
          · intro k t dk hk hdk
            rw [alookup_aset] at hk
            by_cases hik : sk = k
            · subst hik
              rw [if_pos rfl] at hk
              injection hk with hk
              subst hk
              obtain ⟨hdk1, hdk2⟩ := truthyStr_some hdk
              refine ⟨{ account with devices := aset account.devices deviceId d }, ?_, ?_⟩
              · show alookup (aset s.accounts uid _) session.uid = _
                rw [huidses, alookup_aset, if_pos rfl]
              · rw [hdk1, devSTid_aset, if_pos rfl, hdsk]
            · rw [if_neg hik] at hk
              obtain ⟨a0, ha0, hd0⟩ := h1 k t dk hk hdk
              by_cases hu : t.uid = uid
              · rw [hu, hacc] at ha0
                injection ha0 with ha0
                subst ha0
                by_cases hdd : deviceId = dk
                · rw [← hdd, devSTid, hfresh] at hd0
                  cases hd0
                · refine ⟨{ account with devices := aset account.devices deviceId d }, ?_, ?_⟩
                  · rw [hu, alookup_aset, if_pos rfl]
                  · rw [devSTid_aset, if_neg hdd]
                    exact hd0
              · refine ⟨a0, ?_, hd0⟩
                rw [alookup_aset, if_neg (fun hh => hu hh.symm)]
                exact ha0
          · intro u b dk sk0 t hb hd' hsk0' ht
            rw [alookup_aset] at hb
            rw [alookup_aset] at ht
            by_cases hu : uid = u
            · rw [if_pos hu] at hb
              injection hb with hb
              subst hb
              rw [devSTid_aset] at hd'
              by_cases hdd : deviceId = dk
              · rw [if_pos hdd] at hd'
                injection hd' with hd'
                rw [hdsk] at hd'
                injection hd' with hd'
                rw [← hd'] at ht
                rw [if_pos rfl] at ht
                injection ht with ht
                subst ht
                show session.uid = u
                rw [huidses, hu]
              · rw [if_neg hdd] at hd'
                by_cases hik : sk = sk0
                · rw [if_pos hik] at ht
                  injection ht with ht
                  subst ht
                  show session.uid = u
                  rw [huidses, hu]
                · rw [if_neg hik] at ht
                  exact h2 u account dk sk0 t (hu ▸ hacc) hd' hsk0' ht
            · rw [if_neg hu] at hb
              by_cases hik : sk = sk0
              · rw [if_pos hik] at ht
                injection ht with ht
                subst ht
                show session.uid = u
                exact h2 u b dk sk0 session hb hd' hsk0' (hik ▸ hses)
              · rw [if_neg hik] at ht
                exact h2 u b dk sk0 t hb hd' hsk0' ht
          · intro u b hb
            rw [alookup_aset] at hb
            by_cases hu : uid = u
            · rw [if_pos hu] at hb
              injection hb with hb
              subst hb
              exact nodup_keysOf_aset _ _ (h3 uid account hacc)
            · rw [if_neg hu] at hb
              exact h3 u b hb
        · subst hs1
          refine ⟨?_, ?_, ?_, h4⟩
          · intro k t dk hk hdk
            obtain ⟨a0, ha0, hd0⟩ := h1 k t dk hk hdk
            by_cases hu : t.uid = uid
            · rw [hu, hacc] at ha0
              injection ha0 with ha0
              subst ha0
              by_cases hdd : deviceId = dk
              · rw [← hdd, devSTid, hfresh] at hd0
                cases hd0
              · refine ⟨{ account with devices := aset account.devices deviceId d }, ?_, ?_⟩
                · rw [hu, alookup_aset, if_pos rfl]
                · rw [devSTid_aset, if_neg hdd]
                  exact hd0
            · refine ⟨a0, ?_, hd0⟩
              rw [alookup_aset, if_neg (fun hh => hu hh.symm)]
              exact ha0
          · intro u b dk sk0 t hb hd' hsk0' ht
            rw [alookup_aset] at hb
            by_cases hu : uid = u
            · rw [if_pos hu] at hb
              injection hb with hb
              subst hb
              rw [devSTid_aset] at hd'
              by_cases hdd : deviceId = dk
              · rw [if_pos hdd] at hd'
                injection hd' with hd'
                rw [hstid] at hd'
                rw [hcond sk0 hd' hsk0'] at ht
                cases ht
              · rw [if_neg hdd] at hd'
                exact h2 u account dk sk0 t (hu ▸ hacc) hd' hsk0' ht
            · rw [if_neg hu] at hb
              exact h2 u b dk sk0 t hb hd' hsk0' ht
          · intro u b hb
            rw [alookup_aset] at hb
            by_cases hu : uid = u
            · rw [if_pos hu] at hb
              injection hb with hb
              subst hb
              exact nodup_keysOf_aset _ _ (h3 uid account hacc)
            · rw [if_neg hu] at hb
              exact h3 u b hb

theorem storeInvCore_device_linked
    (s1 : State) (uid deviceId : String) (account : Account) (d : Device)
    (sk : String) (session : SessionToken)
    (h : StoreInv s1)
    (hacc : alookup s1.accounts uid = some account)
    (hses : alookup s1.sessionTokens sk = some session)
    (huidses : session.uid = uid)
    (hdsk : d.sessionTokenId = some sk)
    (hH : ∀ k t, alookup s1.sessionTokens k = some t → truthyStr t.deviceKey = some deviceId →
      t.uid = uid → d.sessionTokenId = some k) :
    StoreInvCore (aset s1.accounts uid { account with devices := aset account.devices deviceId d })
      (aset s1.sessionTokens sk { session with deviceKey := some deviceId }) := by
  obtain ⟨h1, h2, h3, h4⟩ := h
  refine ⟨?_, ?_, ?_, nodup_keysOf_aset _ _ h4⟩
  · intro k t dk hk hdk
    rw [alookup_aset] at hk
    by_cases hik : sk = k
    · subst hik
      rw [if_pos rfl] at hk
      injection hk with hk
      subst hk
      obtain ⟨hdk1, hdk2⟩ := truthyStr_some hdk
      refine ⟨{ account with devices := aset account.devices deviceId d }, ?_, ?_⟩
      · show alookup (aset s1.accounts uid _) session.uid = _
        rw [huidses, alookup_aset, if_pos rfl]
      · rw [hdk1, devSTid_aset, if_pos rfl, hdsk]
    · rw [if_neg hik] at hk
      obtain ⟨a0, ha0, hd0⟩ := h1 k t dk hk hdk
      by_cases hu : t.uid = uid
      · rw [hu, hacc] at ha0
        injection ha0 with ha0
        subst ha0
        by_cases hdd : deviceId = dk
        · exfalso
          have := hH k t hk (hdd ▸ hdk) hu
          rw [hdsk] at this
          injection this with this
          exact hik this
        · refine ⟨{ account with devices := aset account.devices deviceId d }, ?_, ?_⟩
          · rw [hu, alookup_aset, if_pos rfl]
          · rw [devSTid_aset, if_neg hdd]
            exact hd0
      · refine ⟨a0, ?_, hd0⟩
        rw [alookup_aset, if_neg (fun hh => hu hh.symm)]
        exact ha0
  · intro u b dk sk0 t hb hd' hsk0' ht
    rw [alookup_aset] at hb
    rw [alookup_aset] at ht
    by_cases hu : uid = u
    · rw [if_pos hu] at hb
      injection hb with hb
      subst hb
      rw [devSTid_aset] at hd'
      by_cases hdd : deviceId = dk
      · rw [if_pos hdd] at hd'
        injection hd' with hd'
        rw [hdsk] at hd'
        injection hd' with hd'
        rw [← hd'] at ht
        rw [if_pos rfl] at ht
        injection ht with ht
        subst ht
        show session.uid = u
        rw [huidses, hu]
      · rw [if_neg hdd] at hd'
        by_cases hik : sk = sk0
        · rw [if_pos hik] at ht
          injection ht with ht
          subst ht
          show session.uid = u
          rw [huidses, hu]
        · rw [if_neg hik] at ht
          exact h2 u account dk sk0 t (hu ▸ hacc) hd' hsk0' ht
    · rw [if_neg hu] at hb
      by_cases hik : sk = sk0
      · rw [if_pos hik] at ht
        injection ht with ht
        subst ht
        show session.uid = u
        exact h2 u b dk sk0 session hb hd' hsk0' (hik ▸ hses)
      · rw [if_neg hik] at ht
        exact h2 u b dk sk0 t hb hd' hsk0' ht
  · intro u b hb
    rw [alookup_aset] at hb
    by_cases hu : uid = u
    · rw [if_pos hu] at hb
      injection hb with hb
      subst hb
      exact nodup_keysOf_aset _ _ (h3 uid account hacc)
    · rw [if_neg hu] at hb
      exact h3 u b hb

theorem storeInvCore_device_nolink
    (s1 : State) (uid deviceId : String) (account : Account) (d : Device)
    (h : StoreInv s1)
    (hacc : alookup s1.accounts uid = some account)
    (hH : ∀ k t, alookup s1.sessionTokens k = some t → truthyStr t.deviceKey = some deviceId →
      t.uid = uid → d.sessionTokenId = some k)
    (hK : ∀ sk t, d.sessionTokenId = some sk → sk ≠ "" →
      alookup s1.sessionTokens sk = some t → t.uid = uid) :
    StoreInvCore (aset s1.accounts uid { account with devices := aset account.devices deviceId d })
      s1.sessionTokens := by
  obtain ⟨h1, h2, h3, h4⟩ := h
  refine ⟨?_, ?_, ?_, h4⟩
  · intro k t dk hk hdk
    obtain ⟨a0, ha0, hd0⟩ := h1 k t dk hk hdk
    by_cases hu : t.uid = uid
    · rw [hu, hacc] at ha0
      injection ha0 with ha0
      subst ha0
      by_cases hdd : deviceId = dk
      · refine ⟨{ account with devices := aset account.devices deviceId d }, ?_, ?_⟩
        · rw [hu, alookup_aset, if_pos rfl]
        · rw [← hdd, devSTid_aset, if_pos rfl, hH k t hk (hdd ▸ hdk) hu]
      · refine ⟨{ account with devices := aset account.devices deviceId d }, ?_, ?_⟩
        · rw [hu, alookup_aset, if_pos rfl]
        · rw [devSTid_aset, if_neg hdd]
          exact hd0
    · refine ⟨a0, ?_, hd0⟩
      rw [alookup_aset, if_neg (fun hh => hu hh.symm)]
      exact ha0
  · intro u b dk sk0 t hb hd' hsk0' ht
    rw [alookup_aset] at hb
    by_cases hu : uid = u
    · rw [if_pos hu] at hb
      injection hb with hb
      subst hb
      rw [devSTid_aset] at hd'
      by_cases hdd : deviceId = dk
      · rw [if_pos hdd] at hd'
        injection hd' with hd'
        rw [← hu]
        exact hK sk0 t hd' hsk0' ht
      · rw [if_neg hdd] at hd'
        exact h2 u account dk sk0 t (hu ▸ hacc) hd' hsk0' ht
    · rw [if_neg hu] at hb
      exact h2 u b dk sk0 t hb hd' hsk0' ht
  · intro u b hb
    rw [alookup_aset] at hb
    by_cases hu : uid = u
    · rw [if_pos hu] at hb
      injection hb with hb
      subst hb
      exact nodup_keysOf_aset _ _ (h3 uid account hacc)
    · rw [if_neg hu] at hb
      exact h3 u b hb

theorem storeInv_updateDevice_ok
    (s1 : State) (uid deviceId : String) (info' : DeviceInfo)
    (account : Account) (device d : Device) (s2 : State)
    (hrec : updateDeviceRecord s1 device info' deviceId = Except.ok (d, s2))
    (h1 : StoreInv s1)
    (hacc1 : alookup s1.accounts uid = some account)
    (hdev : alookup account.devices deviceId = some device)
    (hdisc1 : ∀ sk t, info'.sessionTokenId = some sk → sk ≠ "" →
        alookup s1.sessionTokens sk = some t → t.uid = uid)
    (hH0 : ∀ k t, alookup s1.sessionTokens k = some t → truthyStr t.deviceKey = some deviceId →
        t.uid = uid → mergeField device.sessionTokenId info'.sessionTokenId = some k) :
    StoreInv { s2 with accounts := aset s2.accounts uid { account with devices := aset account.devices deviceId d } } := by
  obtain ⟨hstid0, hcase⟩ := updateDeviceRecord_ok hrec
  rcases hcase with ⟨sk, session, hsk', hsk0, hses, hdd, hs2⟩ | ⟨hdd, hs2, hcond⟩
  · subst hs2
    exact storeInvCore_device_linked s1 uid deviceId account d sk session h1 hacc1 hses
      (hdisc1 sk session hsk' hsk0 hses)
      (by rw [hstid0, hsk']; rfl)
      (fun k t hk hdk hu => by rw [hstid0]; exact hH0 k t hk hdk hu)
  · subst hs2
    refine storeInvCore_device_nolink _ uid deviceId account d h1 hacc1
      (fun k t hk hdk hu => by rw [hstid0]; exact hH0 k t hk hdk hu) ?_
    intro sk0 t0 hdsk hne hlk
    cases hisk : info'.sessionTokenId with
    | some newTid =>
      rw [hstid0, hisk] at hdsk
      have hts : newTid = sk0 := by
        simpa [mergeField] using hdsk
      rw [← hts] at hne hlk
      rw [hcond newTid hisk hne] at hlk
      cases hlk
    | none =>
      rw [hstid0, hisk] at hdsk
      have hdev2 : devSTid account deviceId = some (some sk0) := by
        rw [devSTid, hdev]
        simpa [mergeField] using hdsk
      exact h1.2.1 uid account deviceId sk0 t0 hacc1 hdev2 hne hlk

theorem storeInv_updateDevice (s : State) (uid deviceId : String) (info : DeviceInfo)
    (h : StoreInv s) (hdisc : SessionUidDiscipline s uid info) :
    StoreInv (updateDevice s uid deviceId info).2 := by
  rcases hg : getAccountByUid s uid with e | account
  · simp only [updateDevice, hg]
    exact h
  · have hacc := getAccountByUid_ok.mp hg
    cases hdev : alookup account.devices deviceId with
    | none =>
      simp only [updateDevice, hg, hdev]
      exact h
    | some device =>
      cases hdst : device.sessionTokenId with
      | some oldTid =>
        cases hist : info.sessionTokenId with
        | some newTid =>
          by_cases hot : oldTid = newTid
          · -- same token: no unlink
            simp only [updateDevice, hg, hdev, hdst, hist, hot, ne_eq, not_true_eq_false,
              if_false, reduceIte]
            split
            · exact h
            · next d s2 heq =>
              refine storeInv_updateDevice_ok s uid deviceId info account device d s2 heq
                h hacc hdev (fun sk t hsk => hdisc sk t (hist ▸ hsk)) ?_
              intro k t hk hdk hu
              obtain ⟨a0, ha0, hd0⟩ := h.1 k t deviceId hk hdk
              rw [hu, hacc] at ha0
              injection ha0 with ha0
              subst ha0
              rw [devSTid, hdev] at hd0
              have hdk2 : device.sessionTokenId = some k := by simpa using hd0
              rw [hdst] at hdk2
              injection hdk2 with hdk2
              rw [hist, hdst]
              show some newTid = some k
              rw [← hdk2, hot]
          · -- different token: unlink the old one first
            cases hold : alookup s.sessionTokens oldTid with
            | some oldSession =>
              simp only [updateDevice, hg, hdev, hdst, hist, hold, ne_eq, hot,
                not_false_eq_true, if_true]
              have h1 : StoreInv { s with sessionTokens := aset s.sessionTokens oldTid { oldSession with deviceKey := none } } :=
                storeInvCore_clear_dk h hold
              split
              · exact h1
              · next d s2 heq =>
                refine storeInv_updateDevice_ok _ uid deviceId info account device d s2 heq
                  h1 hacc hdev ?_ ?_
                · intro sk t hsk hne hlk
                  have hsknew : sk = newTid := by
                    rw [hist] at hsk
                    injection hsk with hsk2
                    exact hsk2.symm
                  subst hsknew
                  have hlk2 : alookup s.sessionTokens sk = some t := by
                    have hx : alookup (aset s.sessionTokens oldTid { oldSession with deviceKey := none }) sk = some t := hlk
                    rw [alookup_aset, if_neg hot] at hx
                    exact hx
                  exact hdisc sk t hsk hne hlk2
                · intro k t hk hdk hu
                  exfalso
                  have hx : alookup (aset s.sessionTokens oldTid { oldSession with deviceKey := none }) k = some t := hk
                  rw [alookup_aset] at hx
                  by_cases hik : oldTid = k
                  · rw [if_pos hik] at hx
                    injection hx with hx
                    subst hx
                    simp [truthyStr] at hdk
                  · rw [if_neg hik] at hx
                    obtain ⟨a0, ha0, hd0⟩ := h.1 k t deviceId hx hdk
                    rw [hu, hacc] at ha0
                    injection ha0 with ha0
                    subst ha0
                    rw [devSTid, hdev] at hd0
                    have hdk2 : device.sessionTokenId = some k := by simpa using hd0
                    rw [hdst] at hdk2
                    injection hdk2 with hdk2
                    exact hik hdk2
            | none =>
              simp only [updateDevice, hg, hdev, hdst, hist, hold, ne_eq, hot,
                not_false_eq_true, if_true]
              split
              · exact h
              · next d s2 heq =>
                refine storeInv_updateDevice_ok s uid deviceId info account device d s2 heq
                  h hacc hdev (fun sk t hsk => hdisc sk t (hist ▸ hsk)) ?_
                intro k t hk hdk hu
                exfalso
                obtain ⟨a0, ha0, hd0⟩ := h.1 k t deviceId hk hdk
                rw [hu, hacc] at ha0
                injection ha0 with ha0
                subst ha0
                rw [devSTid, hdev] at hd0
                have hdk2 : device.sessionTokenId = some k := by simpa using hd0
                rw [hdst] at hdk2
                injection hdk2 with hdk2
                rw [← hdk2] at hk
                rw [hold] at hk
                cases hk
        | none =>
          -- retained binding
          simp only [updateDevice, hg, hdev, hdst, hist]
          split
          · exact h
          · next d s2 heq =>
            refine storeInv_updateDevice_ok s uid deviceId
              { info with sessionTokenId := some oldTid } account device d s2 heq
              h hacc hdev ?_ ?_
            · intro sk t hsk hne hlk
              have hsko : sk = oldTid := by
                injection hsk with hsk2
                exact hsk2.symm
              subst hsko
              have hdev2 : devSTid account deviceId = some (some sk) := by
                rw [devSTid, hdev]
                simp [hdst]
              exact h.2.1 uid account deviceId sk t hacc hdev2 hne hlk
            · intro k t hk hdk hu
              obtain ⟨a0, ha0, hd0⟩ := h.1 k t deviceId hk hdk
              rw [hu, hacc] at ha0
              injection ha0 with ha0
              subst ha0
              rw [devSTid, hdev] at hd0
              have hdk2 : device.sessionTokenId = some k := by simpa using hd0
              rw [hdst] at hdk2
              injection hdk2 with hdk2
              rw [hdst]
              show some oldTid = some k
              rw [hdk2]
      | none =>
        -- no current binding
        simp only [updateDevice, hg, hdev, hdst]
        split
        · exact h
        · next d s2 heq =>
          refine storeInv_updateDevice_ok s uid deviceId info account device d s2 heq
            h hacc hdev (fun sk t hsk => hdisc sk t hsk) ?_
          intro k t hk hdk hu
          exfalso
          obtain ⟨a0, ha0, hd0⟩ := h.1 k t deviceId hk hdk
          rw [hu, hacc] at ha0
          injection ha0 with ha0
          subst ha0
          rw [devSTid, hdev] at hd0
          have hdk2 : device.sessionTokenId = some k := by simpa using hd0
          rw [hdst] at hdk2
          cases hdk2

/-! ## Claim C1: reachability, counterexample, amended theorem -/

theorem reach_storeInv {s : State} (h : Reach s) : StoreInv s := by
  induction h with
  | init => exact storeInv_init
  | createAccount s uid data _ ih => exact storeInv_createAccount s uid data ih
  | createSessionToken s tokenId t _ hdisc ih =>
    exact storeInv_createSessionToken s tokenId t ih hdisc
  | createKeyFetchToken s tokenId t _ ih => exact storeInv_createKeyFetchToken s tokenId t ih
  | createPasswordForgotToken s tokenId t _ ih =>
    exact storeInv_createPasswordForgotToken s tokenId t ih
  | createPasswordChangeToken s tokenId t _ ih =>
    exact storeInv_createPasswordChangeToken s tokenId t ih
  | createAccountResetToken s tokenId t _ ih =>
    exact storeInv_createAccountResetToken s tokenId t ih
  | createDevice s uid deviceId info _ hdisc ih =>
    exact storeInv_createDevice s uid deviceId info ih hdisc
  | updateDevice s uid deviceId info _ hdisc ih =>
    exact storeInv_updateDevice s uid deviceId info ih hdisc
  | deleteSessionToken s tokenId _ ih => exact storeInv_deleteSessionToken s tokenId ih
  | deleteKeyFetchToken s tokenId _ ih => exact storeInv_deleteKeyFetchToken s tokenId ih
  | deleteAccountResetToken s tokenId _ ih =>
    exact storeInv_deleteAccountResetToken s tokenId ih
  | deletePasswordForgotToken s tokenId _ ih =>
    exact storeInv_deletePasswordForgotToken s tokenId ih
  | deletePasswordChangeToken s tokenId _ ih =>
    exact storeInv_deletePasswordChangeToken s tokenId ih
  | deleteDevice s uid deviceId _ ih => exact storeInv_deleteDevice s uid deviceId ih
  | accountDevices s uid _ ih => exact storeInv_accountDevices s uid ih
  | verifyEmail s uid _ ih => exact storeInv_verifyEmail s uid ih
  | unlockAccount s uid _ ih => exact storeInv_unlockAccount s uid ih
  | forgotPasswordVerified s tokenId t _ ih =>
    exact storeInv_forgotPasswordVerified s tokenId t ih
  | resetAccount s uid data _ ih => exact storeInv_resetAccount s uid data ih
  | deleteAccount s uid _ ih => exact storeInv_deleteAccount s uid ih
  | updateLocale s uid locale _ ih => exact storeInv_updateLocale s uid locale ih
  | lockAccount s uid data _ ih => exact storeInv_lockAccount s uid data ih
  | updatePasswordForgotToken s id tries _ ih =>
    exact storeInv_updatePasswordForgotToken s id tries ih
  | updateSessionToken s id data _ ih => exact storeInv_updateSessionToken s id data ih

theorem sessionDeviceInv_of_storeInv {s : State} (h : StoreInv s) : SessionDeviceInv s := by
  obtain ⟨h1, h2, h3, h4⟩ := h
  intro k t dk hk hdk
  obtain ⟨a, ha, hd⟩ := h1 k t dk hk hdk
  rw [devSTid] at hd
  cases hdev : alookup a.devices dk with
  | none =>
    rw [hdev] at hd
    cases hd
  | some d =>
    rw [hdev] at hd
    have hds : d.sessionTokenId = some k := by simpa using hd
    exact ⟨a, d, ha, filter_key_eq_singleton (h3 t.uid a ha) hdev, hds⟩

/-- Claim C1 counterexample: (a) three plain operations reach a state in
which session token `"55"` carries a truthy `deviceKey` although its owning
account `"bb"` does not exist, so the bidirectional invariant fails at a
reachable state; (b) an `updateDevice` that fails with Duplicate has
nevertheless cleared token `"55"`'s back-reference while device `"dd"`
still points at `"55"` (one side of the link mutated by a failing call);
(c) a sequence respecting the owning-uid discipline (`updateDevice` with no
sessionTokenId) still links a foreign token via a retained dangling
forward reference. -/
theorem c1_counterexample :
    ((createAccount initState "aa" fxAccountA).1 = Except.ok () ∧
     (createSessionToken fxS1 "55" (fxSessionPayload "bb")).1 = Except.ok () ∧
     (createDevice fxS2 "aa" "dd" (fxDeviceInfo (some "55"))).1 = Except.ok () ∧
     (alookup fxS3.sessionTokens "55").map SessionToken.uid = some "bb" ∧
     (alookup fxS3.sessionTokens "55").map SessionToken.deviceKey = some (some "dd") ∧
     alookup fxS3.accounts "bb" = none) ∧
    ((alookup fxS5.sessionTokens "55").map SessionToken.deviceKey = some (some "dd") ∧
     fxU6.1 = Except.error Err.duplicate ∧
     (alookup fxU6.2.sessionTokens "55").map SessionToken.deviceKey = some none ∧
     (alookup fxU6.2.accounts "aa").map (fun a => devSTid a "dd") = some (some (some "55"))) ∧
    ((createDevice fxS1 "aa" "d9" (fxDeviceInfo (some "99"))).1 = Except.ok () ∧
     (createSessionToken fxT1 "99" (fxSessionPayload "bb")).1 = Except.ok () ∧
     (updateDevice fxT2 "aa" "d9" (fxDeviceInfo none)).1 = Except.ok () ∧
     (alookup fxT3.sessionTokens "99").map SessionToken.deviceKey = some (some "d9") ∧
     (alookup fxT3.sessionTokens "99").map SessionToken.uid = some "bb" ∧
     alookup fxT3.accounts "bb" = none) :=
  ⟨⟨rfl, rfl, rfl, rfl, rfl, rfl⟩, ⟨rfl, rfl, rfl, rfl⟩, ⟨rfl, rfl, rfl, rfl, rfl, rfl⟩⟩

/-- Claim C1, amended.  (1) The bidirectional invariant — every session
token with a truthy `deviceKey` names exactly one device of its owning
account, whose `sessionTokenId` equals the token's identifier — holds at
every state reachable under two input disciplines the source itself never
enforces: a device create/update that names an existing session token is
performed with that token's owning uid, and a session token is never
created under an identifier already referenced by a device of a different
account.  (2) `createDevice` is atomic: any failure leaves the store
unchanged.  (3) A failing `updateDevice` leaves every table unchanged
except that it may have cleared the back-reference of the session token
previously bound to the device (it never establishes the new link). -/
theorem c1_theorem :
    (∀ s, Reach s → SessionDeviceInv s) ∧
    (∀ s uid deviceId info e s', createDevice s uid deviceId info = (Except.error e, s') →
      s' = s) ∧
    (∀ s uid deviceId info e s', updateDevice s uid deviceId info = (Except.error e, s') →
      s'.accounts = s.accounts ∧ s'.uidByNormalizedEmail = s.uidByNormalizedEmail ∧
      s'.uidByOpenId = s.uidByOpenId ∧ s'.keyFetchTokens = s.keyFetchTokens ∧
      s'.accountResetTokens = s.accountResetTokens ∧
      s'.passwordChangeTokens = s.passwordChangeTokens ∧
      s'.passwordForgotTokens = s.passwordForgotTokens ∧
      s'.accountUnlockCodes = s.accountUnlockCodes ∧
      (s'.sessionTokens = s.sessionTokens ∨
        ∃ k t, alookup s.sessionTokens k = some t ∧
          s'.sessionTokens = aset s.sessionTokens k { t with deviceKey := none })) := by
  refine ⟨fun s hr => sessionDeviceInv_of_storeInv (reach_storeInv hr), ?_, ?_⟩
  · intro s uid deviceId info e s' hfail
    rcases hg : getAccountByUid s uid with e0 | account
    · simp only [createDevice, hg] at hfail
      exact (Prod.mk.injEq .. ▸ hfail).2.symm
    · by_cases hdup : (alookup account.devices deviceId).isSome
      · simp only [createDevice, hg, hdup, if_true] at hfail
        exact (Prod.mk.injEq .. ▸ hfail).2.symm
      · simp only [createDevice, hg, hdup, Bool.false_eq_true, if_false] at hfail
        split at hfail
        · exact (Prod.mk.injEq .. ▸ hfail).2.symm
        · cases (Prod.mk.injEq .. ▸ hfail).1
  · intro s uid deviceId info e s' hfail
    rcases hg : getAccountByUid s uid with e0 | account
    · simp only [updateDevice, hg] at hfail
      obtain ⟨-, hs⟩ := Prod.mk.injEq .. ▸ hfail
      subst hs
      exact ⟨rfl, rfl, rfl, rfl, rfl, rfl, rfl, rfl, Or.inl rfl⟩
    · cases hdev : alookup account.devices deviceId with
      | none =>
        simp only [updateDevice, hg, hdev] at hfail
        obtain ⟨-, hs⟩ := Prod.mk.injEq .. ▸ hfail
        subst hs
        exact ⟨rfl, rfl, rfl, rfl, rfl, rfl, rfl, rfl, Or.inl rfl⟩
      | some device =>
        cases hdst : device.sessionTokenId with
        | some oldTid =>
          cases hist : info.sessionTokenId with
          | some newTid =>
            by_cases hot : oldTid = newTid
            · simp only [updateDevice, hg, hdev, hdst, hist, hot, ne_eq, not_true_eq_false,
                if_false, reduceIte] at hfail
              split at hfail
              · obtain ⟨-, hs⟩ := Prod.mk.injEq .. ▸ hfail
                subst hs
                exact ⟨rfl, rfl, rfl, rfl, rfl, rfl, rfl, rfl, Or.inl rfl⟩
              · cases (Prod.mk.injEq .. ▸ hfail).1
            · cases hold : alookup s.sessionTokens oldTid with
              | some oldSession =>
                simp only [updateDevice, hg, hdev, hdst, hist, hold, ne_eq, hot,
                  not_false_eq_true, if_true] at hfail
                split at hfail
                · obtain ⟨-, hs⟩ := Prod.mk.injEq .. ▸ hfail
                  subst hs
                  exact ⟨rfl, rfl, rfl, rfl, rfl, rfl, rfl, rfl,
                    Or.inr ⟨oldTid, oldSession, hold, rfl⟩⟩
                · cases (Prod.mk.injEq .. ▸ hfail).1
              | none =>
                simp only [updateDevice, hg, hdev, hdst, hist, hold, ne_eq, hot,
                  not_false_eq_true, if_true] at hfail
                split at hfail
                · obtain ⟨-, hs⟩ := Prod.mk.injEq .. ▸ hfail
                  subst hs
                  exact ⟨rfl, rfl, rfl, rfl, rfl, rfl, rfl, rfl, Or.inl rfl⟩
                · cases (Prod.mk.injEq .. ▸ hfail).1
          | none =>
            simp only [updateDevice, hg, hdev, hdst, hist] at hfail
            split at hfail
            · obtain ⟨-, hs⟩ := Prod.mk.injEq .. ▸ hfail
              subst hs
              exact ⟨rfl, rfl, rfl, rfl, rfl, rfl, rfl, rfl, Or.inl rfl⟩
            · cases (Prod.mk.injEq .. ▸ hfail).1
        | none =>
          simp only [updateDevice, hg, hdev, hdst] at hfail
          split at hfail
          · obtain ⟨-, hs⟩ := Prod.mk.injEq .. ▸ hfail
            subst hs
            exact ⟨rfl, rfl, rfl, rfl, rfl, rfl, rfl, rfl, Or.inl rfl⟩
          · cases (Prod.mk.injEq .. ▸ hfail).1

/-- Witness for the amended C1: the invariant at the initial store, the
unchanged store after a failing `createDevice`, and the frame of the
Duplicate-failing `updateDevice` of the counterexample. -/
theorem c1_witness :
    SessionDeviceInv initState ∧
    (createDevice initState "aa" "dd" (fxDeviceInfo none)).2 = initState ∧
    fxU6.2.accounts = fxS5.accounts :=
  ⟨c1_theorem.1 initState Reach.init,
   c1_theorem.2.1 initState "aa" "dd" (fxDeviceInfo none) Err.notFound
     (createDevice initState "aa" "dd" (fxDeviceInfo none)).2 rfl,
   (c1_theorem.2.2 fxS5 "aa" "dd" (fxDeviceInfo (some "66")) Err.duplicate fxU6.2 rfl).1⟩

end MemDb
